import Mathlib

/-!
Verification of the water-simulation core of the liquid-timer repository
(`src/script.js`, class `WaterSimulation`).

The JavaScript class is shallowly embedded as a Lean structure whose methods
become pure functions.  JavaScript numbers are modelled by `ℚ` (the program
performs only field arithmetic, comparisons and floors on the paths of
interest; division by zero is modelled by the `ℚ` convention `x / 0 = 0`,
which is only exercised under hypotheses ruling it out).  Platform functions
that the class calls — `Math.sin`, `Math.exp`, `Math.sqrt`, `Math.PI`,
`Math.random` and `performance.now()` — are not pure rationals, so they are
supplied as components of an explicit oracle environment `Env`; every theorem
below quantifies over the oracle unless the claim itself is about those
inputs.  JavaScript arrays `h`/`v` become `List ℚ`: the in-place index loops
of `stepSurface` (each iteration touches only its own index) become
`List.ofFn` over the same per-index formulas, and the guarded writes of
`addRippleImpulse` / the whirlpool sink (`v[j] !== undefined` / bounds test)
become `List.set` behind the same bounds guard.
-/

/-- Oracle environment for the platform functions used by `WaterSimulation`:
`now` is the value of `performance.now()` during this `update` call, `rand`
enumerates the successive results of `Math.random()`, and `sinQ`, `expQ`,
`sqrtQ`, `piQ` stand for `Math.sin`, `Math.exp`, `Math.sqrt`, `Math.PI`. -/
structure Env where
  now : ℚ
  rand : ℕ → ℚ
  sinQ : ℚ → ℚ
  expQ : ℚ → ℚ
  sqrtQ : ℚ → ℚ
  piQ : ℚ

/-- A falling droplet (source: the object literal pushed in `spawnDroplet`). -/
structure Droplet where
  x : ℚ
  y : ℚ
  px : ℚ
  py : ℚ
  vx : ℚ
  vy : ℚ
  r : ℚ
  vol : ℚ
deriving DecidableEq, Repr

/-- The mutable fields of class `WaterSimulation` (source: constructor).
Fields that the source never reassigns after construction
(`dropsPerSecond`, `maxDroplets`, `streamWidth`, `streamWobbleAmp`,
`streamWobbleSpeed`, `gravity`, `airDrag`, `waveSpeed`, `waveDamping`,
`surfaceViscosity`) are modelled as constants below. -/
structure WaterSimulation where
  droplets : List Droplet
  waterVolume : ℚ
  targetFillHeight : ℚ
  targetVolume : ℚ
  volumePerSecond : ℚ
  surfaceN : ℕ
  h : List ℚ
  v : List ℚ
  dropSpawnAccumulator : ℚ
  streamX : ℚ
  width : ℚ
  height : ℚ
  isDraining : Bool
  whirlpoolActive : Bool
  whirlpoolCenterX : ℚ
  whirlpoolCenterY : ℚ
  whirlpoolStrength : ℚ
  drainRate : ℚ
deriving DecidableEq, Repr

namespace WaterSimulation

/-- Constructor constant `this.dropsPerSecond = 260`. -/
def dropsPerSecond : ℚ := 260

/-- Constructor constant `this.maxDroplets = 1400`. -/
def maxDroplets : ℕ := 1400

/-- Constructor constant `this.streamWidth = 10`. -/
def streamWidth : ℚ := 10

/-- Constructor constant `this.streamWobbleAmp = 18`. -/
def streamWobbleAmp : ℚ := 18

/-- Constructor constant `this.streamWobbleSpeed = 0.65`. -/
def streamWobbleSpeed : ℚ := 0.65

/-- Constructor constant `this.gravity = 5200`. -/
def gravity : ℚ := 5200

/-- Constructor constant `this.airDrag = 0.995`. -/
def airDrag : ℚ := 0.995

/-- Constructor constant `this.waveSpeed = 235`. -/
def waveSpeed : ℚ := 235

/-- Constructor constant `this.waveDamping = 1.35`. -/
def waveDamping : ℚ := 1.35

/-- Constructor constant `this.surfaceViscosity = 0.02`. -/
def surfaceViscosity : ℚ := 0.02

/-- Source `update` line `const dt = Math.max(0, Math.min(0.05, deltaTime))`. -/
def clampDt (deltaTime : ℚ) : ℚ := max 0 (min 0.05 deltaTime)

/-- Source method `getWaterHeight` (note the JS falsy test
`this.targetFillHeight || this.height`, modelled as a test against 0). -/
def getWaterHeight (s : WaterSimulation) : ℚ :=
  if s.width ≤ 0 then 0
  else min (if s.targetFillHeight = 0 then s.height else s.targetFillHeight)
    (s.waterVolume / s.width)

/-- Source method `getBaseSurfaceY`. -/
def getBaseSurfaceY (s : WaterSimulation) : ℚ := s.height - getWaterHeight s

/-- Source method `xToIndex` (result is the clamped array index as an integer). -/
def xToIndex (s : WaterSimulation) (x : ℚ) : ℤ :=
  let t : ℚ := if s.width ≤ 1 then 0 else x / s.width
  max 0 (min ((s.surfaceN : ℤ) - 1) (Int.floor (t * ((s.surfaceN : ℚ) - 1))))

/-- JS array read `l[j] ?? 0` at a possibly negative / out-of-range index. -/
def hGet (l : List ℚ) (j : ℤ) : ℚ := if 0 ≤ j then l.getD j.toNat 0 else 0

/-- Source method `sampleSurfaceOffset`. -/
def sampleSurfaceOffset (s : WaterSimulation) (x : ℚ) : ℚ :=
  if s.surfaceN ≤ 1 then 0
  else
    let fx := (x / s.width) * ((s.surfaceN : ℚ) - 1)
    let i0 : ℤ := Int.floor fx
    let i1 : ℤ := min ((s.surfaceN : ℤ) - 1) (i0 + 1)
    let t := fx - (i0 : ℚ)
    hGet s.h i0 * (1 - t) + hGet s.h i1 * t

/-- Source method `getSurfaceY`. -/
def getSurfaceY (s : WaterSimulation) (x : ℚ) : ℚ :=
  getBaseSurfaceY s + sampleSurfaceOffset s x

/-- Source method `setTargetFillHeight`. -/
def setTargetFillHeight (s : WaterSimulation) (hgt : ℚ) : WaterSimulation :=
  { s with targetFillHeight := hgt, targetVolume := s.width * hgt }

/-- Source method `setEmission`. -/
def setEmission (s : WaterSimulation) (volumePerSecond : ℚ) : WaterSimulation :=
  { s with volumePerSecond := max 0 volumePerSecond }

/-- Source method `reset` (`fill(0)` keeps the array lengths). -/
def reset (s : WaterSimulation) : WaterSimulation :=
  { s with droplets := [], waterVolume := 0, dropSpawnAccumulator := 0,
           h := s.h.map (fun _ => 0), v := s.v.map (fun _ => 0),
           isDraining := false, whirlpoolActive := false,
           whirlpoolStrength := 0, drainRate := 0 }

/-- Source method `initSurfaceField`. -/
def initSurfaceField (s : WaterSimulation) : WaterSimulation :=
  let n := max 96 (Int.floor (s.width / 3)).toNat
  { s with surfaceN := n, h := List.replicate n 0, v := List.replicate n 0 }

/-- Source method `startDraining` (`this.drainRate = this.waterVolume / 2.2`). -/
def startDraining (s : WaterSimulation) : WaterSimulation :=
  { s with isDraining := true, whirlpoolActive := true,
           whirlpoolCenterX := s.width / 2, whirlpoolCenterY := s.height - 50,
           whirlpoolStrength := 0.6, drainRate := s.waterVolume / 2.2 }

/-- Guarded in-place velocity write `if (this.v[j] !== undefined) this.v[j] += amt`. -/
def bump (l : List ℚ) (j : ℤ) (amt : ℚ) : List ℚ :=
  if 0 ≤ j ∧ j < (l.length : ℤ) then l.set j.toNat (l.getD j.toNat 0 + amt) else l

/-- Source method `addRippleImpulse` (seven guarded writes, in source order). -/
def addRippleImpulse (s : WaterSimulation) (x strength : ℚ) : WaterSimulation :=
  let idx := xToIndex s x
  let v1 := bump s.v idx strength
  let v2 := bump v1 (idx - 1) (strength * 0.75)
  let v3 := bump v2 (idx + 1) (strength * 0.75)
  let v4 := bump v3 (idx - 2) (strength * 0.45)
  let v5 := bump v4 (idx + 2) (strength * 0.45)
  let v6 := bump v5 (idx - 3) (strength * 0.20)
  let v7 := bump v6 (idx + 3) (strength * 0.20)
  { s with v := v7 }

/-- Source method `spawnDroplet`; `r1 r2 r3 r4` are the four `Math.random()`
results it draws (volume variation, x jitter, y offset, x velocity). -/
def spawnDroplet (env : Env) (s : WaterSimulation) (r1 r2 r3 r4 : ℚ) :
    WaterSimulation :=
  if maxDroplets ≤ s.droplets.length then s
  else
    let meanDropVolume := s.volumePerSecond / max 1 dropsPerSecond
    let vol := max 0.0001 (meanDropVolume * (0.65 + r1 * 0.7))
    let r := max 1.5 (min 5.5 (env.sqrtQ (vol / env.piQ) * 9.5))
    let jitter := (r2 - 0.5) * streamWidth * 0.9
    let x := max 0 (min s.width (s.streamX + jitter))
    let y := -12 - r3 * 40
    let vx := (r4 - 0.5) * 20
    { s with droplets := s.droplets ++
        [{ x := x, y := y, px := x, py := y, vx := vx, vy := 0, r := r, vol := vol }] }

/-- The spawn loop body of `update`, iterated `n` times; `i` indexes into the
random stream (4 draws per spawn). -/
def spawnN (env : Env) : ℕ → ℕ → WaterSimulation → WaterSimulation
  | 0, _, s => s
  | n + 1, i, s =>
      spawnN env n (i + 4)
        (spawnDroplet env s (env.rand i) (env.rand (i + 1)) (env.rand (i + 2))
          (env.rand (i + 3)))

/-- The emission block of `update` (lines 250–256): accumulate
`dropsPerSecond * dt`, spawn `floor(accumulator)` droplets, decrement. -/
def emitDroplets (env : Env) (dt : ℚ) (s : WaterSimulation) : WaterSimulation :=
  if s.isDraining = false ∧ s.whirlpoolActive = false ∧ 0 < s.volumePerSecond then
    let acc := s.dropSpawnAccumulator + dropsPerSecond * dt
    let n := (Int.floor acc).toNat
    spawnN env n 0 { s with dropSpawnAccumulator := acc - (n : ℚ) }
  else s

/-- The drain block of `update` (lines 259–262). -/
def applyDrain (dt : ℚ) (s : WaterSimulation) : WaterSimulation :=
  if s.isDraining = true ∧ 0 < s.drainRate then
    { s with waterVolume := max 0 (s.waterVolume - s.drainRate * dt),
             whirlpoolStrength := min 3.5 (s.whirlpoolStrength + dt * 0.9) }
  else s

/-- Side-boundary handling of the droplet loop (source lines 279–286): clamp
the x position back to the wall and reflect the horizontal velocity with
energy loss. -/
def wallClamp (s : WaterSimulation) (d : Droplet) (x1 vx1 : ℚ) : ℚ × ℚ :=
  if x1 < d.r then (d.r, vx1 * (-0.35))
  else if s.width - d.r < x1 then (s.width - d.r, vx1 * (-0.35))
  else (x1, vx1)

/-- One iteration of the droplet loop of `update` (lines 267–304): integrate
gravity/drag, clamp at the side walls, then either merge into the reservoir
(`none`, with the ripple impulse), discard below the scene (`none`), or keep
the advanced droplet (`some`). -/
def stepDroplet (dt : ℚ) (d : Droplet) (s : WaterSimulation) :
    Option Droplet × WaterSimulation :=
  let vy1 := d.vy + gravity * dt
  let vx1 := d.vx * airDrag
  let vy2 := vy1 * airDrag
  let x1 := d.x + vx1 * dt
  let y1 := d.y + vy2 * dt
  let xv := wallClamp s d x1 vx1
  let surfaceY := getSurfaceY s xv.1
  if surfaceY ≤ y1 + d.r then
    let newVol := if s.targetVolume = 0 then s.waterVolume + d.vol
                  else min s.targetVolume (s.waterVolume + d.vol)
    let impulse := min 6500 (vy2 * 1.25 + d.vol * 220)
    (none, addRippleImpulse { s with waterVolume := newVol } xv.1 impulse)
  else if s.height + 120 < y1 then (none, s)
  else (some { d with x := xv.1, y := y1, px := d.x, py := d.y,
                      vx := xv.2, vy := vy2 }, s)

/-- The droplet loop of `update`: the source iterates from the last index down
to 0 and splices removed droplets out, so the list tail is processed first and
surviving droplets keep their relative order. -/
def processFrom (dt : ℚ) : List Droplet → WaterSimulation →
    List Droplet × WaterSimulation
  | [], s => ([], s)
  | d :: rest, s =>
      let p := processFrom dt rest s
      match stepDroplet dt d p.2 with
      | (some d', s') => (d' :: p.1, s')
      | (none, s') => (p.1, s')

/-- The whirlpool sink loop of `update` (lines 307–318). -/
def sinkPass (env : Env) (dt : ℚ) (s : WaterSimulation) : List ℚ :=
  let idx := xToIndex s s.whirlpoolCenterX
  let sigma : ℚ := 9
  let sink := -1600 * s.whirlpoolStrength
  (List.range 57).foldl
    (fun vv n =>
      let k : ℤ := (n : ℤ) - 28
      let j := idx + k
      if j < 0 ∨ (s.surfaceN : ℤ) ≤ j then vv
      else
        let w := env.expQ (-((k : ℚ) * (k : ℚ)) / (2 * sigma * sigma))
        vv.set j.toNat (vv.getD j.toNat 0 + sink * w * dt))
    s.v

/-- The whirlpool block of `update`. -/
def applySink (env : Env) (dt : ℚ) (s : WaterSimulation) : WaterSimulation :=
  if s.whirlpoolActive = true then { s with v := sinkPass env dt s } else s

/-- Source method `stepSurface` (lines 207–236).  The three in-place index
loops (Laplacian on interior velocities, damping + integration, viscosity
blur into a fresh array) each touch only their own index, so they are written
as `List.ofFn` of the fused per-index formulas. -/
def stepSurface (env : Env) (dt : ℚ) (s : WaterSimulation) : WaterSimulation :=
  if s.surfaceN ≤ 2 then s
  else
    let n := s.surfaceN
    let dx := s.width / ((n : ℚ) - 1)
    let c2 := waveSpeed * waveSpeed
    let damp := env.expQ (-waveDamping * dt)
    let lap : ℕ → ℚ := fun i =>
      (s.h.getD (i - 1) 0 + s.h.getD (i + 1) 0 - 2 * s.h.getD i 0) / (dx * dx)
    let vNew : ℕ → ℚ := fun i =>
      (s.v.getD i 0 + (if 1 ≤ i ∧ i + 1 < n then c2 * lap i * dt else 0)) * damp
    let hMid : ℕ → ℚ := fun i => s.h.getD i 0 + vNew i * dt
    let hNew : ℕ → ℚ := fun i =>
      if 1 ≤ i ∧ i + 1 < n then
        hMid i * (1 - surfaceViscosity) +
          (hMid (i - 1) + hMid (i + 1)) * (surfaceViscosity * 0.5)
      else hMid i
    { s with v := List.ofFn (fun i : Fin n => vNew i.1),
             h := if 0 < surfaceViscosity then List.ofFn (fun i : Fin n => hNew i.1)
                  else List.ofFn (fun i : Fin n => hMid i.1) }

/-- The stream-wobble block of `update` (lines 242–246), driven by
`performance.now()` (i.e. `env.now`). -/
def updateStreamX (env : Env) (s : WaterSimulation) : WaterSimulation :=
  let t := env.now * 0.001
  let base := s.width * 0.56
  let wobble := env.sinQ (t * (env.piQ * 2) * streamWobbleSpeed) * streamWobbleAmp
  let wobble2 :=
    env.sinQ (t * (env.piQ * 2) * (streamWobbleSpeed * 1.9) + 1.3) *
      (streamWobbleAmp * 0.35)
  { s with streamX := max streamWidth (min (s.width - streamWidth)
      (base + wobble + wobble2)) }

/-- Body of `update` after the timestep clamp, in source order: stream wobble,
emission, drain withdrawal, snapshot of the base surface, droplet loop,
whirlpool sink, overflow guard (lines 321–323), surface step, drain auto-stop
(lines 329–334). -/
def updateCore (env : Env) (dt : ℚ) (s : WaterSimulation) : WaterSimulation :=
  let s1 := updateStreamX env s
  let s2 := emitDroplets env dt s1
  let s3 := applyDrain dt s2
  let baseY := getBaseSurfaceY s3
  let pr := processFrom dt s3.droplets s3
  let s5 := { pr.2 with droplets := pr.1 }
  let s6 := applySink env dt s5
  let s7 := if baseY < 0 then { s6 with waterVolume := s6.width * s6.height } else s6
  let s8 := stepSurface env dt s7
  if s8.isDraining = true ∧ s8.waterVolume ≤ 0 ∧ s8.droplets.length = 0 then
    { s8 with whirlpoolActive := false, isDraining := false,
              whirlpoolStrength := 0, drainRate := 0 }
  else s8

/-- Source method `update` (lines 238–335). -/
def update (env : Env) (s : WaterSimulation) (deltaTime : ℚ) : WaterSimulation :=
  updateCore env (clampDt deltaTime) s

/-- Repeated ticking: fold `update` over a list of raw `deltaTime` values. -/
def updates (env : Env) (s : WaterSimulation) (dts : List ℚ) : WaterSimulation :=
  dts.foldl (fun a dt => update env a dt) s

/-- A concrete oracle used for witnesses and counterexamples (the transcendental
oracles are arbitrary concrete stand-ins; every general theorem holds for all
oracles). -/
def envA : Env :=
  { now := 0, rand := fun _ => 0, sinQ := fun x => x, expQ := fun _ => 1,
    sqrtQ := fun _ => 0, piQ := 3 }

/-- The same oracle observed at a later wall-clock instant. -/
def envB : Env := { envA with now := 1000 }

/-- A concrete idle simulation state (100×100 scene, empty reservoir). -/
def idleState : WaterSimulation :=
  { droplets := [], waterVolume := 0, targetFillHeight := 0, targetVolume := 0,
    volumePerSecond := 0, surfaceN := 0, h := [], v := [],
    dropSpawnAccumulator := 0, streamX := 0, width := 100, height := 100,
    isDraining := false, whirlpoolActive := false, whirlpoolCenterX := 0,
    whirlpoolCenterY := 0, whirlpoolStrength := 0, drainRate := 0 }

/-- Overfilled state: the target fill height (200) exceeds the scene height
(100) and the volume exceeds `width * height`, so the overflow guard of
`update` (source lines 321–323) rewrites `waterVolume` downward. -/
def overfullState : WaterSimulation :=
  { idleState with targetFillHeight := 200, waterVolume := 20000 }

/-- State with `targetFillHeight = 0` (the constructor default) but water
present: the JS falsy test substitutes the scene height for the target. -/
def zeroTargetState : WaterSimulation :=
  { idleState with width := 1, height := 5, waterVolume := 10 }

/-- A filling state used by witnesses: volume below target, no droplets. -/
def fillingState : WaterSimulation :=
  { idleState with waterVolume := 5, targetVolume := 50, targetFillHeight := 1 }

/-- A droplet whose radius (5) exceeds half the scene width of
`narrowState` (4): the side-wall clamp pushes it outside `[0, width]`. -/
def wideDroplet : Droplet :=
  { x := 2, y := 0, px := 2, py := 0, vx := 0, vy := 0, r := 5, vol := 1 }

/-- A narrow scene (width 4) holding `wideDroplet`. -/
def narrowState : WaterSimulation :=
  { idleState with width := 4, height := 1000, droplets := [wideDroplet] }

/-- A small in-range droplet for witnesses. -/
def smallDroplet : Droplet :=
  { x := 50, y := 0, px := 50, py := 0, vx := 0, vy := 0, r := 2, vol := 1 }

/-- State used by the drain-completion witness: 11 units of volume, no
droplets, emission off. -/
def drainState : WaterSimulation := { idleState with waterVolume := 11 }

/-- A well-formed three-sample surface field. -/
def surfState : WaterSimulation :=
  { idleState with surfaceN := 3, h := [0, 1, 0], v := [0, 0, 0] }

/-- The heightfield well-formedness invariant claimed by the spec:
`h.length == v.length == N`. -/
def surfInv (s : WaterSimulation) : Prop :=
  s.h.length = s.surfaceN ∧ s.v.length = s.surfaceN

instance (s : WaterSimulation) : Decidable (surfInv s) := by
  unfold surfInv; infer_instance

/-- Spec-side sample spacing `dx = width / (N - 1)`. -/
def surfaceDx (s : WaterSimulation) : ℚ := s.width / ((s.surfaceN : ℚ) - 1)

/-- Spec-side description of one surface step acting on velocities: interior
samples (`1 ≤ i ≤ N-2`) gain the central-finite-difference Laplacian of `h`
times `c² dt`; boundary samples gain no Laplacian term; then every sample is
multiplied by the damping factor `exp(-waveDamping dt)`. -/
def velocityAfterStep (env : Env) (dt : ℚ) (s : WaterSimulation) (i : ℕ) : ℚ :=
  (s.v.getD i 0 +
      (if 1 ≤ i ∧ i + 1 < s.surfaceN then
        waveSpeed * waveSpeed *
          ((s.h.getD (i - 1) 0 + s.h.getD (i + 1) 0 - 2 * s.h.getD i 0) /
            (surfaceDx s * surfaceDx s)) * dt
      else 0)) *
    env.expQ (-waveDamping * dt)

/-- Spec-side description of the explicit integration `h[i] += v[i] * dt`
using the damped velocities. -/
def heightAfterIntegration (env : Env) (dt : ℚ) (s : WaterSimulation) (i : ℕ) : ℚ :=
  s.h.getD i 0 + velocityAfterStep env dt s i * dt

/-- Spec-side description of the single-pass neighbour-averaging blur, which
leaves the two boundary heights unchanged. -/
def heightAfterBlur (env : Env) (dt : ℚ) (s : WaterSimulation) (i : ℕ) : ℚ :=
  if 1 ≤ i ∧ i + 1 < s.surfaceN then
    heightAfterIntegration env dt s i * (1 - surfaceViscosity) +
      (heightAfterIntegration env dt s (i - 1) +
        heightAfterIntegration env dt s (i + 1)) * (surfaceViscosity * 0.5)
  else heightAfterIntegration env dt s i

/-- Side conditions maintained throughout a droplet-free drain run in a
`wd × ht` scene: no droplets, emission off, fixed geometry, and a volume
that fits in the scene. -/
def drainBasic (wd ht : ℚ) (u : WaterSimulation) : Prop :=
  u.droplets = [] ∧ u.volumePerSecond = 0 ∧ u.width = wd ∧ u.height = ht ∧
    0 ≤ u.waterVolume ∧ u.waterVolume ≤ wd * ht

/-- The two phases of a drain started at volume `W0` after `T` seconds of
(clamped) ticking: either still draining with the residual linear volume, or
auto-stopped with everything zeroed (source lines 329–334). -/
def drainPhase (W0 T : ℚ) (u : WaterSimulation) : Prop :=
  (u.isDraining = true ∧ u.whirlpoolActive = true ∧ u.drainRate = W0 / 2.2 ∧
      u.waterVolume = W0 - W0 / 2.2 * T ∧ (0 < u.waterVolume ∨ T = 0)) ∨
    (u.isDraining = false ∧ u.whirlpoolActive = false ∧ u.waterVolume = 0 ∧
      u.drainRate = 0)

end WaterSimulation

namespace WaterSimulation

lemma updateStreamX_shape (env : Env) (s : WaterSimulation) :
    ∃ sx, updateStreamX env s = { s with streamX := sx } := ⟨_, rfl⟩

lemma addRippleImpulse_shape (s : WaterSimulation) (x k : ℚ) :
    ∃ vv, addRippleImpulse s x k = { s with v := vv } := ⟨_, rfl⟩

lemma spawnDroplet_shape (env : Env) (s : WaterSimulation) (r1 r2 r3 r4 : ℚ) :
    ∃ ds, spawnDroplet env s r1 r2 r3 r4 = { s with droplets := ds } := by
  unfold spawnDroplet
  split
  · exact ⟨s.droplets, rfl⟩
  · exact ⟨_, rfl⟩

lemma spawnN_shape (env : Env) (n i : ℕ) (s : WaterSimulation) :
    ∃ ds, spawnN env n i s = { s with droplets := ds } := by
  induction n generalizing i s with
  | zero => exact ⟨s.droplets, rfl⟩
  | succ n ih =>
      obtain ⟨ds1, h1⟩ := spawnDroplet_shape env s (env.rand i) (env.rand (i + 1))
        (env.rand (i + 2)) (env.rand (i + 3))
      obtain ⟨ds2, h2⟩ := ih (i + 4)
        (spawnDroplet env s (env.rand i) (env.rand (i + 1)) (env.rand (i + 2))
          (env.rand (i + 3)))
      refine ⟨ds2, ?_⟩
      rw [spawnN, h2, h1]

lemma emitDroplets_shape (env : Env) (dt : ℚ) (s : WaterSimulation) :
    ∃ ds acc, emitDroplets env dt s = { s with droplets := ds, dropSpawnAccumulator := acc } := by
  unfold emitDroplets
  split
  · obtain ⟨ds, h⟩ := spawnN_shape env
      ((Int.floor (s.dropSpawnAccumulator + dropsPerSecond * dt)).toNat) 0
      { s with dropSpawnAccumulator :=
          s.dropSpawnAccumulator + dropsPerSecond * dt -
            (((Int.floor (s.dropSpawnAccumulator + dropsPerSecond * dt)).toNat : ℚ)) }
    exact ⟨ds, _, h⟩
  · exact ⟨s.droplets, s.dropSpawnAccumulator, rfl⟩

lemma applyDrain_shape (dt : ℚ) (s : WaterSimulation) :
    ∃ w st, applyDrain dt s = { s with waterVolume := w, whirlpoolStrength := st } := by
  unfold applyDrain
  split
  · exact ⟨_, _, rfl⟩
  · exact ⟨s.waterVolume, s.whirlpoolStrength, rfl⟩

lemma stepDroplet_shape (dt : ℚ) (d : Droplet) (s : WaterSimulation) :
    ∃ w vv, (stepDroplet dt d s).2 = { s with waterVolume := w, v := vv } := by
  simp only [stepDroplet]
  repeat' split
  all_goals exact ⟨_, _, rfl⟩

lemma processFrom_shape (dt : ℚ) (l : List Droplet) (s : WaterSimulation) :
    ∃ w vv, (processFrom dt l s).2 = { s with waterVolume := w, v := vv } := by
  induction l generalizing s with
  | nil => exact ⟨s.waterVolume, s.v, rfl⟩
  | cons d rest ih =>
      obtain ⟨w1, vv1, h1⟩ := ih s
      obtain ⟨w2, vv2, h2⟩ := stepDroplet_shape dt d (processFrom dt rest s).2
      refine ⟨w2, vv2, ?_⟩
      simp only [processFrom]
      rcases hs : stepDroplet dt d (processFrom dt rest s).2 with ⟨o, s'⟩
      have h2' : s' = { (processFrom dt rest s).2 with waterVolume := w2, v := vv2 } := by
        rw [hs] at h2; exact h2
      cases o <;> simp only [] <;> rw [h2', h1]

lemma applySink_shape (env : Env) (dt : ℚ) (s : WaterSimulation) :
    ∃ vv, applySink env dt s = { s with v := vv } := by
  unfold applySink
  split
  · exact ⟨_, rfl⟩
  · exact ⟨s.v, rfl⟩

lemma stepSurface_shape (env : Env) (dt : ℚ) (s : WaterSimulation) :
    ∃ hh vv, stepSurface env dt s = { s with h := hh, v := vv } := by
  unfold stepSurface
  split
  · exact ⟨s.h, s.v, rfl⟩
  · exact ⟨_, _, rfl⟩

end WaterSimulation

namespace WaterSimulation

/-! Field-projection lemmas: each update stage leaves these fields unchanged
(immediate from the shape lemmas above). -/

@[simp] lemma updateStreamX_droplets (env : Env) (s : WaterSimulation) :
    (updateStreamX env s).droplets = s.droplets := rfl

@[simp] lemma updateStreamX_waterVolume (env : Env) (s : WaterSimulation) :
    (updateStreamX env s).waterVolume = s.waterVolume := rfl

@[simp] lemma updateStreamX_targetFillHeight (env : Env) (s : WaterSimulation) :
    (updateStreamX env s).targetFillHeight = s.targetFillHeight := rfl

@[simp] lemma updateStreamX_targetVolume (env : Env) (s : WaterSimulation) :
    (updateStreamX env s).targetVolume = s.targetVolume := rfl

@[simp] lemma updateStreamX_volumePerSecond (env : Env) (s : WaterSimulation) :
    (updateStreamX env s).volumePerSecond = s.volumePerSecond := rfl

@[simp] lemma updateStreamX_surfaceN (env : Env) (s : WaterSimulation) :
    (updateStreamX env s).surfaceN = s.surfaceN := rfl

@[simp] lemma updateStreamX_h (env : Env) (s : WaterSimulation) :
    (updateStreamX env s).h = s.h := rfl

@[simp] lemma updateStreamX_v (env : Env) (s : WaterSimulation) :
    (updateStreamX env s).v = s.v := rfl

@[simp] lemma updateStreamX_dropSpawnAccumulator (env : Env) (s : WaterSimulation) :
    (updateStreamX env s).dropSpawnAccumulator = s.dropSpawnAccumulator := rfl

@[simp] lemma updateStreamX_width (env : Env) (s : WaterSimulation) :
    (updateStreamX env s).width = s.width := rfl

@[simp] lemma updateStreamX_height (env : Env) (s : WaterSimulation) :
    (updateStreamX env s).height = s.height := rfl

@[simp] lemma updateStreamX_isDraining (env : Env) (s : WaterSimulation) :
    (updateStreamX env s).isDraining = s.isDraining := rfl

@[simp] lemma updateStreamX_whirlpoolActive (env : Env) (s : WaterSimulation) :
    (updateStreamX env s).whirlpoolActive = s.whirlpoolActive := rfl

@[simp] lemma updateStreamX_whirlpoolStrength (env : Env) (s : WaterSimulation) :
    (updateStreamX env s).whirlpoolStrength = s.whirlpoolStrength := rfl

@[simp] lemma updateStreamX_drainRate (env : Env) (s : WaterSimulation) :
    (updateStreamX env s).drainRate = s.drainRate := rfl

@[simp] lemma emitDroplets_waterVolume (env : Env) (dt : ℚ) (s : WaterSimulation) :
    (emitDroplets env dt s).waterVolume = s.waterVolume := by
  obtain ⟨ds, acc, e⟩ := emitDroplets_shape env dt s; rw [e]

@[simp] lemma emitDroplets_targetFillHeight (env : Env) (dt : ℚ) (s : WaterSimulation) :
    (emitDroplets env dt s).targetFillHeight = s.targetFillHeight := by
  obtain ⟨ds, acc, e⟩ := emitDroplets_shape env dt s; rw [e]

@[simp] lemma emitDroplets_targetVolume (env : Env) (dt : ℚ) (s : WaterSimulation) :
    (emitDroplets env dt s).targetVolume = s.targetVolume := by
  obtain ⟨ds, acc, e⟩ := emitDroplets_shape env dt s; rw [e]

@[simp] lemma emitDroplets_volumePerSecond (env : Env) (dt : ℚ) (s : WaterSimulation) :
    (emitDroplets env dt s).volumePerSecond = s.volumePerSecond := by
  obtain ⟨ds, acc, e⟩ := emitDroplets_shape env dt s; rw [e]

@[simp] lemma emitDroplets_surfaceN (env : Env) (dt : ℚ) (s : WaterSimulation) :
    (emitDroplets env dt s).surfaceN = s.surfaceN := by
  obtain ⟨ds, acc, e⟩ := emitDroplets_shape env dt s; rw [e]

@[simp] lemma emitDroplets_h (env : Env) (dt : ℚ) (s : WaterSimulation) :
    (emitDroplets env dt s).h = s.h := by
  obtain ⟨ds, acc, e⟩ := emitDroplets_shape env dt s; rw [e]

@[simp] lemma emitDroplets_v (env : Env) (dt : ℚ) (s : WaterSimulation) :
    (emitDroplets env dt s).v = s.v := by
  obtain ⟨ds, acc, e⟩ := emitDroplets_shape env dt s; rw [e]

@[simp] lemma emitDroplets_streamX (env : Env) (dt : ℚ) (s : WaterSimulation) :
    (emitDroplets env dt s).streamX = s.streamX := by
  obtain ⟨ds, acc, e⟩ := emitDroplets_shape env dt s; rw [e]

@[simp] lemma emitDroplets_width (env : Env) (dt : ℚ) (s : WaterSimulation) :
    (emitDroplets env dt s).width = s.width := by
  obtain ⟨ds, acc, e⟩ := emitDroplets_shape env dt s; rw [e]

@[simp] lemma emitDroplets_height (env : Env) (dt : ℚ) (s : WaterSimulation) :
    (emitDroplets env dt s).height = s.height := by
  obtain ⟨ds, acc, e⟩ := emitDroplets_shape env dt s; rw [e]

@[simp] lemma emitDroplets_isDraining (env : Env) (dt : ℚ) (s : WaterSimulation) :
    (emitDroplets env dt s).isDraining = s.isDraining := by
  obtain ⟨ds, acc, e⟩ := emitDroplets_shape env dt s; rw [e]

@[simp] lemma emitDroplets_whirlpoolActive (env : Env) (dt : ℚ) (s : WaterSimulation) :
    (emitDroplets env dt s).whirlpoolActive = s.whirlpoolActive := by
  obtain ⟨ds, acc, e⟩ := emitDroplets_shape env dt s; rw [e]

@[simp] lemma emitDroplets_whirlpoolStrength (env : Env) (dt : ℚ) (s : WaterSimulation) :
    (emitDroplets env dt s).whirlpoolStrength = s.whirlpoolStrength := by
  obtain ⟨ds, acc, e⟩ := emitDroplets_shape env dt s; rw [e]

@[simp] lemma emitDroplets_drainRate (env : Env) (dt : ℚ) (s : WaterSimulation) :
    (emitDroplets env dt s).drainRate = s.drainRate := by
  obtain ⟨ds, acc, e⟩ := emitDroplets_shape env dt s; rw [e]

@[simp] lemma applyDrain_droplets (dt : ℚ) (s : WaterSimulation) :
    (applyDrain dt s).droplets = s.droplets := by
  obtain ⟨w, st, e⟩ := applyDrain_shape dt s; rw [e]

@[simp] lemma applyDrain_targetFillHeight (dt : ℚ) (s : WaterSimulation) :
    (applyDrain dt s).targetFillHeight = s.targetFillHeight := by
  obtain ⟨w, st, e⟩ := applyDrain_shape dt s; rw [e]

@[simp] lemma applyDrain_targetVolume (dt : ℚ) (s : WaterSimulation) :
    (applyDrain dt s).targetVolume = s.targetVolume := by
  obtain ⟨w, st, e⟩ := applyDrain_shape dt s; rw [e]

@[simp] lemma applyDrain_volumePerSecond (dt : ℚ) (s : WaterSimulation) :
    (applyDrain dt s).volumePerSecond = s.volumePerSecond := by
  obtain ⟨w, st, e⟩ := applyDrain_shape dt s; rw [e]

@[simp] lemma applyDrain_surfaceN (dt : ℚ) (s : WaterSimulation) :
    (applyDrain dt s).surfaceN = s.surfaceN := by
  obtain ⟨w, st, e⟩ := applyDrain_shape dt s; rw [e]

@[simp] lemma applyDrain_h (dt : ℚ) (s : WaterSimulation) :
    (applyDrain dt s).h = s.h := by
  obtain ⟨w, st, e⟩ := applyDrain_shape dt s; rw [e]

@[simp] lemma applyDrain_v (dt : ℚ) (s : WaterSimulation) :
    (applyDrain dt s).v = s.v := by
  obtain ⟨w, st, e⟩ := applyDrain_shape dt s; rw [e]

@[simp] lemma applyDrain_dropSpawnAccumulator (dt : ℚ) (s : WaterSimulation) :
    (applyDrain dt s).dropSpawnAccumulator = s.dropSpawnAccumulator := by
  obtain ⟨w, st, e⟩ := applyDrain_shape dt s; rw [e]

@[simp] lemma applyDrain_streamX (dt : ℚ) (s : WaterSimulation) :
    (applyDrain dt s).streamX = s.streamX := by
  obtain ⟨w, st, e⟩ := applyDrain_shape dt s; rw [e]

@[simp] lemma applyDrain_width (dt : ℚ) (s : WaterSimulation) :
    (applyDrain dt s).width = s.width := by
  obtain ⟨w, st, e⟩ := applyDrain_shape dt s; rw [e]

@[simp] lemma applyDrain_height (dt : ℚ) (s : WaterSimulation) :
    (applyDrain dt s).height = s.height := by
  obtain ⟨w, st, e⟩ := applyDrain_shape dt s; rw [e]

@[simp] lemma applyDrain_isDraining (dt : ℚ) (s : WaterSimulation) :
    (applyDrain dt s).isDraining = s.isDraining := by
  obtain ⟨w, st, e⟩ := applyDrain_shape dt s; rw [e]

@[simp] lemma applyDrain_whirlpoolActive (dt : ℚ) (s : WaterSimulation) :
    (applyDrain dt s).whirlpoolActive = s.whirlpoolActive := by
  obtain ⟨w, st, e⟩ := applyDrain_shape dt s; rw [e]

@[simp] lemma applyDrain_drainRate (dt : ℚ) (s : WaterSimulation) :
    (applyDrain dt s).drainRate = s.drainRate := by
  obtain ⟨w, st, e⟩ := applyDrain_shape dt s; rw [e]

@[simp] lemma processFrom_droplets (dt : ℚ) (l : List Droplet) (s : WaterSimulation) :
    ((processFrom dt l s).2).droplets = s.droplets := by
  obtain ⟨w, vv, e⟩ := processFrom_shape dt l s; rw [e]

@[simp] lemma processFrom_targetFillHeight (dt : ℚ) (l : List Droplet) (s : WaterSimulation) :
    ((processFrom dt l s).2).targetFillHeight = s.targetFillHeight := by
  obtain ⟨w, vv, e⟩ := processFrom_shape dt l s; rw [e]

@[simp] lemma processFrom_targetVolume (dt : ℚ) (l : List Droplet) (s : WaterSimulation) :
    ((processFrom dt l s).2).targetVolume = s.targetVolume := by
  obtain ⟨w, vv, e⟩ := processFrom_shape dt l s; rw [e]

@[simp] lemma processFrom_volumePerSecond (dt : ℚ) (l : List Droplet) (s : WaterSimulation) :
    ((processFrom dt l s).2).volumePerSecond = s.volumePerSecond := by
  obtain ⟨w, vv, e⟩ := processFrom_shape dt l s; rw [e]

@[simp] lemma processFrom_surfaceN (dt : ℚ) (l : List Droplet) (s : WaterSimulation) :
    ((processFrom dt l s).2).surfaceN = s.surfaceN := by
  obtain ⟨w, vv, e⟩ := processFrom_shape dt l s; rw [e]

@[simp] lemma processFrom_h (dt : ℚ) (l : List Droplet) (s : WaterSimulation) :
    ((processFrom dt l s).2).h = s.h := by
  obtain ⟨w, vv, e⟩ := processFrom_shape dt l s; rw [e]

@[simp] lemma processFrom_dropSpawnAccumulator (dt : ℚ) (l : List Droplet) (s : WaterSimulation) :
    ((processFrom dt l s).2).dropSpawnAccumulator = s.dropSpawnAccumulator := by
  obtain ⟨w, vv, e⟩ := processFrom_shape dt l s; rw [e]

@[simp] lemma processFrom_streamX (dt : ℚ) (l : List Droplet) (s : WaterSimulation) :
    ((processFrom dt l s).2).streamX = s.streamX := by
  obtain ⟨w, vv, e⟩ := processFrom_shape dt l s; rw [e]

@[simp] lemma processFrom_width (dt : ℚ) (l : List Droplet) (s : WaterSimulation) :
    ((processFrom dt l s).2).width = s.width := by
  obtain ⟨w, vv, e⟩ := processFrom_shape dt l s; rw [e]

@[simp] lemma processFrom_height (dt : ℚ) (l : List Droplet) (s : WaterSimulation) :
    ((processFrom dt l s).2).height = s.height := by
  obtain ⟨w, vv, e⟩ := processFrom_shape dt l s; rw [e]

@[simp] lemma processFrom_isDraining (dt : ℚ) (l : List Droplet) (s : WaterSimulation) :
    ((processFrom dt l s).2).isDraining = s.isDraining := by
  obtain ⟨w, vv, e⟩ := processFrom_shape dt l s; rw [e]

@[simp] lemma processFrom_whirlpoolActive (dt : ℚ) (l : List Droplet) (s : WaterSimulation) :
    ((processFrom dt l s).2).whirlpoolActive = s.whirlpoolActive := by
  obtain ⟨w, vv, e⟩ := processFrom_shape dt l s; rw [e]

@[simp] lemma processFrom_whirlpoolStrength (dt : ℚ) (l : List Droplet) (s : WaterSimulation) :
    ((processFrom dt l s).2).whirlpoolStrength = s.whirlpoolStrength := by
  obtain ⟨w, vv, e⟩ := processFrom_shape dt l s; rw [e]

@[simp] lemma processFrom_drainRate (dt : ℚ) (l : List Droplet) (s : WaterSimulation) :
    ((processFrom dt l s).2).drainRate = s.drainRate := by
  obtain ⟨w, vv, e⟩ := processFrom_shape dt l s; rw [e]

@[simp] lemma applySink_droplets (env : Env) (dt : ℚ) (s : WaterSimulation) :
    (applySink env dt s).droplets = s.droplets := by
  obtain ⟨vv, e⟩ := applySink_shape env dt s; rw [e]

@[simp] lemma applySink_waterVolume (env : Env) (dt : ℚ) (s : WaterSimulation) :
    (applySink env dt s).waterVolume = s.waterVolume := by
  obtain ⟨vv, e⟩ := applySink_shape env dt s; rw [e]

@[simp] lemma applySink_targetFillHeight (env : Env) (dt : ℚ) (s : WaterSimulation) :
    (applySink env dt s).targetFillHeight = s.targetFillHeight := by
  obtain ⟨vv, e⟩ := applySink_shape env dt s; rw [e]

@[simp] lemma applySink_targetVolume (env : Env) (dt : ℚ) (s : WaterSimulation) :
    (applySink env dt s).targetVolume = s.targetVolume := by
  obtain ⟨vv, e⟩ := applySink_shape env dt s; rw [e]

@[simp] lemma applySink_volumePerSecond (env : Env) (dt : ℚ) (s : WaterSimulation) :
    (applySink env dt s).volumePerSecond = s.volumePerSecond := by
  obtain ⟨vv, e⟩ := applySink_shape env dt s; rw [e]

@[simp] lemma applySink_surfaceN (env : Env) (dt : ℚ) (s : WaterSimulation) :
    (applySink env dt s).surfaceN = s.surfaceN := by
  obtain ⟨vv, e⟩ := applySink_shape env dt s; rw [e]

@[simp] lemma applySink_h (env : Env) (dt : ℚ) (s : WaterSimulation) :
    (applySink env dt s).h = s.h := by
  obtain ⟨vv, e⟩ := applySink_shape env dt s; rw [e]

@[simp] lemma applySink_dropSpawnAccumulator (env : Env) (dt : ℚ) (s : WaterSimulation) :
    (applySink env dt s).dropSpawnAccumulator = s.dropSpawnAccumulator := by
  obtain ⟨vv, e⟩ := applySink_shape env dt s; rw [e]

@[simp] lemma applySink_streamX (env : Env) (dt : ℚ) (s : WaterSimulation) :
    (applySink env dt s).streamX = s.streamX := by
  obtain ⟨vv, e⟩ := applySink_shape env dt s; rw [e]

@[simp] lemma applySink_width (env : Env) (dt : ℚ) (s : WaterSimulation) :
    (applySink env dt s).width = s.width := by
  obtain ⟨vv, e⟩ := applySink_shape env dt s; rw [e]

@[simp] lemma applySink_height (env : Env) (dt : ℚ) (s : WaterSimulation) :
    (applySink env dt s).height = s.height := by
  obtain ⟨vv, e⟩ := applySink_shape env dt s; rw [e]

@[simp] lemma applySink_isDraining (env : Env) (dt : ℚ) (s : WaterSimulation) :
    (applySink env dt s).isDraining = s.isDraining := by
  obtain ⟨vv, e⟩ := applySink_shape env dt s; rw [e]

@[simp] lemma applySink_whirlpoolActive (env : Env) (dt : ℚ) (s : WaterSimulation) :
    (applySink env dt s).whirlpoolActive = s.whirlpoolActive := by
  obtain ⟨vv, e⟩ := applySink_shape env dt s; rw [e]

@[simp] lemma applySink_whirlpoolStrength (env : Env) (dt : ℚ) (s : WaterSimulation) :
    (applySink env dt s).whirlpoolStrength = s.whirlpoolStrength := by
  obtain ⟨vv, e⟩ := applySink_shape env dt s; rw [e]

@[simp] lemma applySink_drainRate (env : Env) (dt : ℚ) (s : WaterSimulation) :
    (applySink env dt s).drainRate = s.drainRate := by
  obtain ⟨vv, e⟩ := applySink_shape env dt s; rw [e]

@[simp] lemma stepSurface_droplets (env : Env) (dt : ℚ) (s : WaterSimulation) :
    (stepSurface env dt s).droplets = s.droplets := by
  obtain ⟨hh, vv, e⟩ := stepSurface_shape env dt s; rw [e]

@[simp] lemma stepSurface_waterVolume (env : Env) (dt : ℚ) (s : WaterSimulation) :
    (stepSurface env dt s).waterVolume = s.waterVolume := by
  obtain ⟨hh, vv, e⟩ := stepSurface_shape env dt s; rw [e]

@[simp] lemma stepSurface_targetFillHeight (env : Env) (dt : ℚ) (s : WaterSimulation) :
    (stepSurface env dt s).targetFillHeight = s.targetFillHeight := by
  obtain ⟨hh, vv, e⟩ := stepSurface_shape env dt s; rw [e]

@[simp] lemma stepSurface_targetVolume (env : Env) (dt : ℚ) (s : WaterSimulation) :
    (stepSurface env dt s).targetVolume = s.targetVolume := by
  obtain ⟨hh, vv, e⟩ := stepSurface_shape env dt s; rw [e]

@[simp] lemma stepSurface_volumePerSecond (env : Env) (dt : ℚ) (s : WaterSimulation) :
    (stepSurface env dt s).volumePerSecond = s.volumePerSecond := by
  obtain ⟨hh, vv, e⟩ := stepSurface_shape env dt s; rw [e]

@[simp] lemma stepSurface_surfaceN (env : Env) (dt : ℚ) (s : WaterSimulation) :
    (stepSurface env dt s).surfaceN = s.surfaceN := by
  obtain ⟨hh, vv, e⟩ := stepSurface_shape env dt s; rw [e]

@[simp] lemma stepSurface_dropSpawnAccumulator (env : Env) (dt : ℚ) (s : WaterSimulation) :
    (stepSurface env dt s).dropSpawnAccumulator = s.dropSpawnAccumulator := by
  obtain ⟨hh, vv, e⟩ := stepSurface_shape env dt s; rw [e]

@[simp] lemma stepSurface_streamX (env : Env) (dt : ℚ) (s : WaterSimulation) :
    (stepSurface env dt s).streamX = s.streamX := by
  obtain ⟨hh, vv, e⟩ := stepSurface_shape env dt s; rw [e]

@[simp] lemma stepSurface_width (env : Env) (dt : ℚ) (s : WaterSimulation) :
    (stepSurface env dt s).width = s.width := by
  obtain ⟨hh, vv, e⟩ := stepSurface_shape env dt s; rw [e]

@[simp] lemma stepSurface_height (env : Env) (dt : ℚ) (s : WaterSimulation) :
    (stepSurface env dt s).height = s.height := by
  obtain ⟨hh, vv, e⟩ := stepSurface_shape env dt s; rw [e]

@[simp] lemma stepSurface_isDraining (env : Env) (dt : ℚ) (s : WaterSimulation) :
    (stepSurface env dt s).isDraining = s.isDraining := by
  obtain ⟨hh, vv, e⟩ := stepSurface_shape env dt s; rw [e]

@[simp] lemma stepSurface_whirlpoolActive (env : Env) (dt : ℚ) (s : WaterSimulation) :
    (stepSurface env dt s).whirlpoolActive = s.whirlpoolActive := by
  obtain ⟨hh, vv, e⟩ := stepSurface_shape env dt s; rw [e]

@[simp] lemma stepSurface_whirlpoolStrength (env : Env) (dt : ℚ) (s : WaterSimulation) :
    (stepSurface env dt s).whirlpoolStrength = s.whirlpoolStrength := by
  obtain ⟨hh, vv, e⟩ := stepSurface_shape env dt s; rw [e]

@[simp] lemma stepSurface_drainRate (env : Env) (dt : ℚ) (s : WaterSimulation) :
    (stepSurface env dt s).drainRate = s.drainRate := by
  obtain ⟨hh, vv, e⟩ := stepSurface_shape env dt s; rw [e]

end WaterSimulation

namespace WaterSimulation

/-! Projections distribute over branching states, and `update` leaves the
geometry and configuration fields untouched. -/

@[simp] lemma ite_droplets (c : Prop) [Decidable c] (a b : WaterSimulation) :
    (if c then a else b).droplets = if c then a.droplets else b.droplets :=
  apply_ite droplets c a b

@[simp] lemma ite_waterVolume (c : Prop) [Decidable c] (a b : WaterSimulation) :
    (if c then a else b).waterVolume = if c then a.waterVolume else b.waterVolume :=
  apply_ite waterVolume c a b

@[simp] lemma ite_targetFillHeight (c : Prop) [Decidable c] (a b : WaterSimulation) :
    (if c then a else b).targetFillHeight = if c then a.targetFillHeight else b.targetFillHeight :=
  apply_ite targetFillHeight c a b

@[simp] lemma ite_targetVolume (c : Prop) [Decidable c] (a b : WaterSimulation) :
    (if c then a else b).targetVolume = if c then a.targetVolume else b.targetVolume :=
  apply_ite targetVolume c a b

@[simp] lemma ite_volumePerSecond (c : Prop) [Decidable c] (a b : WaterSimulation) :
    (if c then a else b).volumePerSecond = if c then a.volumePerSecond else b.volumePerSecond :=
  apply_ite volumePerSecond c a b

@[simp] lemma ite_surfaceN (c : Prop) [Decidable c] (a b : WaterSimulation) :
    (if c then a else b).surfaceN = if c then a.surfaceN else b.surfaceN :=
  apply_ite surfaceN c a b

@[simp] lemma ite_h (c : Prop) [Decidable c] (a b : WaterSimulation) :
    (if c then a else b).h = if c then a.h else b.h :=
  apply_ite h c a b

@[simp] lemma ite_v (c : Prop) [Decidable c] (a b : WaterSimulation) :
    (if c then a else b).v = if c then a.v else b.v :=
  apply_ite v c a b

@[simp] lemma ite_dropSpawnAccumulator (c : Prop) [Decidable c] (a b : WaterSimulation) :
    (if c then a else b).dropSpawnAccumulator = if c then a.dropSpawnAccumulator else b.dropSpawnAccumulator :=
  apply_ite dropSpawnAccumulator c a b

@[simp] lemma ite_streamX (c : Prop) [Decidable c] (a b : WaterSimulation) :
    (if c then a else b).streamX = if c then a.streamX else b.streamX :=
  apply_ite streamX c a b

@[simp] lemma ite_width (c : Prop) [Decidable c] (a b : WaterSimulation) :
    (if c then a else b).width = if c then a.width else b.width :=
  apply_ite width c a b

@[simp] lemma ite_height (c : Prop) [Decidable c] (a b : WaterSimulation) :
    (if c then a else b).height = if c then a.height else b.height :=
  apply_ite height c a b

@[simp] lemma ite_isDraining (c : Prop) [Decidable c] (a b : WaterSimulation) :
    (if c then a else b).isDraining = if c then a.isDraining else b.isDraining :=
  apply_ite isDraining c a b

@[simp] lemma ite_whirlpoolActive (c : Prop) [Decidable c] (a b : WaterSimulation) :
    (if c then a else b).whirlpoolActive = if c then a.whirlpoolActive else b.whirlpoolActive :=
  apply_ite whirlpoolActive c a b

@[simp] lemma ite_whirlpoolStrength (c : Prop) [Decidable c] (a b : WaterSimulation) :
    (if c then a else b).whirlpoolStrength = if c then a.whirlpoolStrength else b.whirlpoolStrength :=
  apply_ite whirlpoolStrength c a b

@[simp] lemma ite_drainRate (c : Prop) [Decidable c] (a b : WaterSimulation) :
    (if c then a else b).drainRate = if c then a.drainRate else b.drainRate :=
  apply_ite drainRate c a b

lemma update_volumePerSecond (env : Env) (s : WaterSimulation) (dt : ℚ) :
    (update env s dt).volumePerSecond = s.volumePerSecond := by
  simp [update, updateCore]

lemma update_targetFillHeight (env : Env) (s : WaterSimulation) (dt : ℚ) :
    (update env s dt).targetFillHeight = s.targetFillHeight := by
  simp [update, updateCore]

lemma update_targetVolume (env : Env) (s : WaterSimulation) (dt : ℚ) :
    (update env s dt).targetVolume = s.targetVolume := by
  simp [update, updateCore]

lemma update_surfaceN (env : Env) (s : WaterSimulation) (dt : ℚ) :
    (update env s dt).surfaceN = s.surfaceN := by
  simp [update, updateCore]

lemma update_width (env : Env) (s : WaterSimulation) (dt : ℚ) :
    (update env s dt).width = s.width := by
  simp [update, updateCore]

lemma update_height (env : Env) (s : WaterSimulation) (dt : ℚ) :
    (update env s dt).height = s.height := by
  simp [update, updateCore]

end WaterSimulation

namespace WaterSimulation

/-! `addRippleImpulse` only rewrites the velocity field. -/

@[simp] lemma addRippleImpulse_droplets (s : WaterSimulation) (x k : ℚ) :
    (addRippleImpulse s x k).droplets = s.droplets := rfl

@[simp] lemma addRippleImpulse_waterVolume (s : WaterSimulation) (x k : ℚ) :
    (addRippleImpulse s x k).waterVolume = s.waterVolume := rfl

@[simp] lemma addRippleImpulse_targetFillHeight (s : WaterSimulation) (x k : ℚ) :
    (addRippleImpulse s x k).targetFillHeight = s.targetFillHeight := rfl

@[simp] lemma addRippleImpulse_targetVolume (s : WaterSimulation) (x k : ℚ) :
    (addRippleImpulse s x k).targetVolume = s.targetVolume := rfl

@[simp] lemma addRippleImpulse_volumePerSecond (s : WaterSimulation) (x k : ℚ) :
    (addRippleImpulse s x k).volumePerSecond = s.volumePerSecond := rfl

@[simp] lemma addRippleImpulse_surfaceN (s : WaterSimulation) (x k : ℚ) :
    (addRippleImpulse s x k).surfaceN = s.surfaceN := rfl

@[simp] lemma addRippleImpulse_h (s : WaterSimulation) (x k : ℚ) :
    (addRippleImpulse s x k).h = s.h := rfl

@[simp] lemma addRippleImpulse_dropSpawnAccumulator (s : WaterSimulation) (x k : ℚ) :
    (addRippleImpulse s x k).dropSpawnAccumulator = s.dropSpawnAccumulator := rfl

@[simp] lemma addRippleImpulse_streamX (s : WaterSimulation) (x k : ℚ) :
    (addRippleImpulse s x k).streamX = s.streamX := rfl

@[simp] lemma addRippleImpulse_width (s : WaterSimulation) (x k : ℚ) :
    (addRippleImpulse s x k).width = s.width := rfl

@[simp] lemma addRippleImpulse_height (s : WaterSimulation) (x k : ℚ) :
    (addRippleImpulse s x k).height = s.height := rfl

@[simp] lemma addRippleImpulse_isDraining (s : WaterSimulation) (x k : ℚ) :
    (addRippleImpulse s x k).isDraining = s.isDraining := rfl

@[simp] lemma addRippleImpulse_whirlpoolActive (s : WaterSimulation) (x k : ℚ) :
    (addRippleImpulse s x k).whirlpoolActive = s.whirlpoolActive := rfl

@[simp] lemma addRippleImpulse_whirlpoolStrength (s : WaterSimulation) (x k : ℚ) :
    (addRippleImpulse s x k).whirlpoolStrength = s.whirlpoolStrength := rfl

@[simp] lemma addRippleImpulse_drainRate (s : WaterSimulation) (x k : ℚ) :
    (addRippleImpulse s x k).drainRate = s.drainRate := rfl

end WaterSimulation

namespace WaterSimulation

lemma clampDt_of_clamped (d : ℚ) : clampDt (min 0.05 (max 0 d)) = clampDt d := by
  unfold clampDt
  rcases le_total d 0 with h0 | h0 <;> rcases le_total (0.05 : ℚ) d with h5 | h5 <;>
    simp [min_def, max_def] <;> split_ifs <;> linarith

/-- C5: `update` clamps the incoming timestep before any integrator sees it:
`update s deltaTime` equals `update s (min 0.05 (max 0 deltaTime))`, and the
clamped timestep always lies in `[0, 0.05]`. -/
theorem update_clamps_timestep (env : Env) (s : WaterSimulation) (d : ℚ) :
    update env s d = update env s (min 0.05 (max 0 d)) ∧
      0 ≤ clampDt d ∧ clampDt d ≤ 0.05 := by
  refine ⟨?_, le_max_left 0 _, max_le (by norm_num) (min_le_left _ _)⟩
  unfold update
  rw [clampDt_of_clamped]

/-- C10: `setEmission` stores `max 0 v`, so a negative requested rate is
silently clamped to 0 and the stored rate is never negative; and no other
operation of the class writes `volumePerSecond` at all. -/
theorem setEmission_clamps_to_nonneg (s : WaterSimulation) (x : ℚ) (env : Env)
    (dt hgt y k : ℚ) :
    (setEmission s x).volumePerSecond = max 0 x ∧
      0 ≤ (setEmission s x).volumePerSecond ∧
      (update env s dt).volumePerSecond = s.volumePerSecond ∧
      (reset s).volumePerSecond = s.volumePerSecond ∧
      (startDraining s).volumePerSecond = s.volumePerSecond ∧
      (setTargetFillHeight s hgt).volumePerSecond = s.volumePerSecond ∧
      (initSurfaceField s).volumePerSecond = s.volumePerSecond ∧
      (stepSurface env dt s).volumePerSecond = s.volumePerSecond ∧
      (addRippleImpulse s y k).volumePerSecond = s.volumePerSecond :=
  ⟨rfl, le_max_left 0 x, update_volumePerSecond env s dt, rfl, rfl, rfl, rfl,
    stepSurface_volumePerSecond env dt s, rfl⟩

/-- C2 (amended): `getWaterHeight` returns 0 whenever `width ≤ 0`; for a
positive width it returns `min targetFillHeight (waterVolume / width)` only
when `targetFillHeight ≠ 0` — when `targetFillHeight = 0` the JS falsy test
`targetFillHeight || height` substitutes the scene height for the target. -/
theorem getWaterHeight_characterization (s : WaterSimulation) :
    (s.width ≤ 0 → getWaterHeight s = 0) ∧
      (0 < s.width → s.targetFillHeight ≠ 0 →
        getWaterHeight s = min s.targetFillHeight (s.waterVolume / s.width)) ∧
      (0 < s.width → s.targetFillHeight = 0 →
        getWaterHeight s = min s.height (s.waterVolume / s.width)) := by
  unfold getWaterHeight
  refine ⟨fun hw => if_pos hw, fun hw hne => ?_, fun hw he => ?_⟩
  · rw [if_neg (not_le.mpr hw), if_neg hne]
  · rw [if_neg (not_le.mpr hw), if_pos he]

/-- Witness for C2's amended theorem at two concrete states. -/
theorem getWaterHeight_characterization_witness :
    getWaterHeight { zeroTargetState with targetFillHeight := 3 } = 3 ∧
      getWaterHeight { zeroTargetState with width := 0 } = 0 := by
  constructor
  · rw [(getWaterHeight_characterization { zeroTargetState with targetFillHeight := 3 }).2.1
      (by norm_num [zeroTargetState, idleState]) (by norm_num [zeroTargetState, idleState])]
    norm_num [zeroTargetState, idleState]
  · exact (getWaterHeight_characterization { zeroTargetState with width := 0 }).1
      (by norm_num [zeroTargetState, idleState])

/-- C2 counterexample: with `targetFillHeight = 0`, width 1, height 5 and
volume 10, the code returns `min(height, volume/width) = 5`, while the
claimed formula `min(targetFillHeight, volume/width)` gives 0. -/
theorem getWaterHeight_zero_target_mismatch :
    getWaterHeight zeroTargetState = 5 ∧
      zeroTargetState.targetFillHeight = 0 ∧
      min zeroTargetState.targetFillHeight
          (zeroTargetState.waterVolume / zeroTargetState.width) = 0 ∧
      getWaterHeight zeroTargetState ≠
        min zeroTargetState.targetFillHeight
          (zeroTargetState.waterVolume / zeroTargetState.width) := by
  norm_num [getWaterHeight, zeroTargetState, idleState]

/-- C4 (amended): `update` is a deterministic function of the state, the
timestep and the per-call oracle inputs (wall clock, random stream and math
oracles): two calls from identical states with identical `dt` and identical
oracle readings produce identical states.  (It is not deterministic in
`(state, dt)` alone — see the counterexample.) -/
theorem update_deterministic_given_oracles (s : WaterSimulation) (dt : ℚ)
    (e1 e2 : Env) (hnow : e1.now = e2.now) (hrand : e1.rand = e2.rand)
    (hsin : e1.sinQ = e2.sinQ) (hexp : e1.expQ = e2.expQ)
    (hsqrt : e1.sqrtQ = e2.sqrtQ) (hpi : e1.piQ = e2.piQ) :
    update e1 s dt = update e2 s dt := by
  obtain ⟨n1, r1, si1, x1, q1, p1⟩ := e1
  obtain ⟨n2, r2, si2, x2, q2, p2⟩ := e2
  simp only at hnow hrand hsin hexp hsqrt hpi
  subst hnow hrand hsin hexp hsqrt hpi
  rfl

/-- Witness for C4's amended theorem with two (identical) concrete oracles. -/
theorem update_deterministic_given_oracles_witness :
    update envA fillingState 1 = update envA fillingState 1 :=
  update_deterministic_given_oracles fillingState 1 envA envA rfl rfl rfl rfl rfl rfl

/-- C4 counterexample: two `update` calls from the same state with the same
`dt` and the same math/random oracles but different wall-clock readings
(`performance.now()` = 0 vs 1000) yield different states: the stream wobble
phase is taken from the wall clock (source line 242), so the resulting
`streamX` differs (64.19 vs 90). -/
theorem update_depends_on_wall_clock :
    envA.now ≠ envB.now ∧ envA.rand = envB.rand ∧ envA.sinQ = envB.sinQ ∧
      envA.expQ = envB.expQ ∧ envA.sqrtQ = envB.sqrtQ ∧ envA.piQ = envB.piQ ∧
      (update envA idleState 0).streamX = 6419 / 100 ∧
      (update envB idleState 0).streamX = 90 ∧
      update envA idleState 0 ≠ update envB idleState 0 := by
  have hA : (update envA idleState 0).streamX = 6419 / 100 := by
    norm_num [update, updateCore, updateStreamX, emitDroplets, applyDrain,
      processFrom, applySink, stepSurface, streamWidth, streamWobbleAmp,
      streamWobbleSpeed, envA, envB, idleState]
  have hB : (update envB idleState 0).streamX = 90 := by
    norm_num [update, updateCore, updateStreamX, emitDroplets, applyDrain,
      processFrom, applySink, stepSurface, streamWidth, streamWobbleAmp,
      streamWobbleSpeed, envA, envB, idleState]
  refine ⟨by norm_num [envA, envB], rfl, rfl, rfl, rfl, rfl, hA, hB, fun hEq => ?_⟩
  have hx := congrArg streamX hEq
  rw [hA, hB] at hx
  norm_num at hx

end WaterSimulation

namespace WaterSimulation

lemma spawnDroplet_at_cap (env : Env) (s : WaterSimulation) (r1 r2 r3 r4 : ℚ)
    (hc : maxDroplets ≤ s.droplets.length) : spawnDroplet env s r1 r2 r3 r4 = s := by
  unfold spawnDroplet
  exact if_pos hc

lemma spawnDroplet_length_le (env : Env) (s : WaterSimulation) (r1 r2 r3 r4 : ℚ)
    (hl : s.droplets.length ≤ maxDroplets) :
    (spawnDroplet env s r1 r2 r3 r4).droplets.length ≤ maxDroplets := by
  unfold spawnDroplet
  split
  · exact hl
  · rename_i hc
    simp only [List.length_append, List.length_cons, List.length_nil]
    omega

lemma spawnN_length_le (env : Env) (n i : ℕ) (s : WaterSimulation)
    (hl : s.droplets.length ≤ maxDroplets) :
    (spawnN env n i s).droplets.length ≤ maxDroplets := by
  induction n generalizing i s with
  | zero => exact hl
  | succ n ih =>
      rw [spawnN]
      exact ih _ _ (spawnDroplet_length_le env s _ _ _ _ hl)

lemma emitDroplets_length_le (env : Env) (dt : ℚ) (s : WaterSimulation)
    (hl : s.droplets.length ≤ maxDroplets) :
    (emitDroplets env dt s).droplets.length ≤ maxDroplets := by
  unfold emitDroplets
  split
  · exact spawnN_length_le env _ 0 _ hl
  · exact hl

lemma processFrom_length_le (dt : ℚ) (l : List Droplet) (s : WaterSimulation) :
    (processFrom dt l s).1.length ≤ l.length := by
  induction l with
  | nil => exact le_refl 0
  | cons d rest ih =>
      simp only [processFrom]
      rcases hstep : stepDroplet dt d (processFrom dt rest s).2 with ⟨o, s'⟩
      cases o <;> simp only [List.length_cons] <;> omega

lemma update_droplets_eq (env : Env) (s : WaterSimulation) (dt : ℚ) :
    (update env s dt).droplets =
      (processFrom (clampDt dt)
        (emitDroplets env (clampDt dt) (updateStreamX env s)).droplets
        (applyDrain (clampDt dt) (emitDroplets env (clampDt dt) (updateStreamX env s)))).1 := by
  simp [update, updateCore]

/-- C6: the droplet cap: if the active droplet count is at most `maxDroplets`
(1400), it stays so across `update`; `spawnDroplet` silently skips the spawn
when the cap is reached; and no other operation adds droplets. -/
theorem droplet_cap_never_exceeded (env : Env) (s : WaterSimulation)
    (dt r1 r2 r3 r4 x k hgt : ℚ) (hl : s.droplets.length ≤ maxDroplets) :
    (update env s dt).droplets.length ≤ maxDroplets ∧
      (spawnDroplet env s r1 r2 r3 r4).droplets.length ≤ maxDroplets ∧
      (maxDroplets ≤ s.droplets.length → spawnDroplet env s r1 r2 r3 r4 = s) ∧
      (reset s).droplets = [] ∧
      (startDraining s).droplets = s.droplets ∧
      (setEmission s x).droplets = s.droplets ∧
      (setTargetFillHeight s hgt).droplets = s.droplets ∧
      (initSurfaceField s).droplets = s.droplets ∧
      (stepSurface env dt s).droplets = s.droplets ∧
      (addRippleImpulse s x k).droplets = s.droplets := by
  refine ⟨?_, spawnDroplet_length_le env s r1 r2 r3 r4 hl,
    spawnDroplet_at_cap env s r1 r2 r3 r4, rfl, rfl, rfl, rfl, rfl, by simp, rfl⟩
  rw [update_droplets_eq]
  exact le_trans (processFrom_length_le _ _ _)
    (emitDroplets_length_le env (clampDt dt) (updateStreamX env s) (by simpa using hl))

/-- Witness for C6 at a concrete under-cap state. -/
theorem droplet_cap_never_exceeded_witness :
    (update envA narrowState 1).droplets.length ≤ maxDroplets :=
  (droplet_cap_never_exceeded envA narrowState 1 0 0 0 0 0 0 0
    (by norm_num [narrowState, idleState, maxDroplets])).1

end WaterSimulation


namespace WaterSimulation

lemma bump_length (l : List ℚ) (j : ℤ) (a : ℚ) : (bump l j a).length = l.length := by
  unfold bump
  split <;> simp

lemma addRippleImpulse_v_length (s : WaterSimulation) (x k : ℚ) :
    (addRippleImpulse s x k).v.length = s.v.length := by
  simp [addRippleImpulse, bump_length]

lemma stepDroplet_v_length (dt : ℚ) (d : Droplet) (s : WaterSimulation) :
    (stepDroplet dt d s).2.v.length = s.v.length := by
  simp only [stepDroplet]
  repeat' split
  all_goals simp [addRippleImpulse_v_length]

lemma processFrom_v_length (dt : ℚ) (l : List Droplet) (s : WaterSimulation) :
    (processFrom dt l s).2.v.length = s.v.length := by
  induction l with
  | nil => rfl
  | cons d rest ih =>
      simp only [processFrom]
      rcases hstep : stepDroplet dt d (processFrom dt rest s).2 with ⟨o, s'⟩
      have hlen : s'.v.length = (processFrom dt rest s).2.v.length := by
        have hstep' := stepDroplet_v_length dt d (processFrom dt rest s).2
        rw [hstep] at hstep'
        exact hstep'
      cases o <;> simp only [] <;> rw [hlen, ih]

lemma foldl_length_invariant {β : Type} (g : List ℚ → β → List ℚ)
    (hg : ∀ vv b, (g vv b).length = vv.length) :
    ∀ (L : List β) (vv : List ℚ), (L.foldl g vv).length = vv.length := by
  intro L
  induction L with
  | nil => intro vv; rfl
  | cons b L ih => intro vv; rw [List.foldl_cons, ih, hg]

lemma sinkPass_length (env : Env) (dt : ℚ) (s : WaterSimulation) :
    (sinkPass env dt s).length = s.v.length := by
  unfold sinkPass
  exact foldl_length_invariant _ (fun vv b => by dsimp only; split <;> simp) _ s.v

lemma applySink_v_length (env : Env) (dt : ℚ) (s : WaterSimulation) :
    (applySink env dt s).v.length = s.v.length := by
  unfold applySink
  split
  · exact sinkPass_length env dt s
  · rfl

lemma stepSurface_h_length (env : Env) (dt : ℚ) (s : WaterSimulation) :
    (stepSurface env dt s).h.length =
      if s.surfaceN ≤ 2 then s.h.length else s.surfaceN := by
  unfold stepSurface
  split
  · rfl
  · dsimp only
    split <;> simp

lemma stepSurface_v_length (env : Env) (dt : ℚ) (s : WaterSimulation) :
    (stepSurface env dt s).v.length =
      if s.surfaceN ≤ 2 then s.v.length else s.surfaceN := by
  unfold stepSurface
  split
  · rfl
  · simp

lemma update_h_length (env : Env) (s : WaterSimulation) (dt : ℚ) :
    (update env s dt).h.length =
      if s.surfaceN ≤ 2 then s.h.length else s.surfaceN := by
  simp [update, updateCore, stepSurface_h_length]

lemma update_v_length (env : Env) (s : WaterSimulation) (dt : ℚ) :
    (update env s dt).v.length =
      if s.surfaceN ≤ 2 then s.v.length else s.surfaceN := by
  simp [update, updateCore, stepSurface_v_length, applySink_v_length,
    processFrom_v_length]

lemma update_surfaceN_eq (env : Env) (s : WaterSimulation) (dt : ℚ) :
    (update env s dt).surfaceN = s.surfaceN :=
  update_surfaceN env s dt

/-- C9: the heightfield well-formedness invariant `h.length = v.length = N`
is established by `initSurfaceField` and preserved by every heightfield
mutation: `stepSurface`, `addRippleImpulse`, the whole of `update` (which
includes the ripple-impulse injections and the whirlpool sink), and `reset`. -/
theorem heightfield_lengths_invariant (env : Env) (dt x k : ℚ)
    (s : WaterSimulation) (hs : surfInv s) :
    surfInv (initSurfaceField s) ∧
      surfInv (stepSurface env dt s) ∧
      surfInv (addRippleImpulse s x k) ∧
      surfInv (update env s dt) ∧
      surfInv (reset s) := by
  obtain ⟨hh, hv⟩ := hs
  refine ⟨⟨by simp [initSurfaceField], by simp [initSurfaceField]⟩, ⟨?_, ?_⟩,
    ⟨by simpa using hh, ?_⟩, ⟨?_, ?_⟩, ⟨by simpa [reset] using hh, by simpa [reset] using hv⟩⟩
  · rw [stepSurface_h_length]
    split
    · simpa using hh
    · simp
  · rw [stepSurface_v_length]
    split
    · simpa using hv
    · simp
  · show (addRippleImpulse s x k).v.length = (addRippleImpulse s x k).surfaceN
    rw [addRippleImpulse_v_length]
    simpa using hv
  · rw [update_h_length, update_surfaceN_eq]
    split
    · exact hh
    · rfl
  · rw [update_v_length, update_surfaceN_eq]
    split
    · exact hv
    · rfl

/-- Witness for C9 at a concrete well-formed three-sample state. -/
theorem heightfield_lengths_invariant_witness :
    surfInv surfState ∧ surfInv (update envA surfState 1) := by
  have hs : surfInv surfState := ⟨by norm_num [surfState, idleState],
    by norm_num [surfState, idleState]⟩
  exact ⟨hs, (heightfield_lengths_invariant envA 1 0 0 surfState hs).2.2.2.1⟩

end WaterSimulation

namespace WaterSimulation

lemma getD_ofFn {n : ℕ} (f : Fin n → ℚ) (i : ℕ) (hi : i < n) :
    (List.ofFn f).getD i 0 = f ⟨i, hi⟩ := by
  rw [List.getD_eq_getElem _ _ (by simpa using hi)]
  simp [List.getElem_ofFn]

/-- C8: for `surfaceN > 2`, `stepSurface dt` updates each interior velocity by
the central-finite-difference Laplacian of `h` times `c²·dt`, adds no
Laplacian term at samples `0` and `N-1`, multiplies every velocity by
`exp(-waveDamping·dt)`, integrates `h[i] += v[i]·dt`, and finally applies a
single-pass neighbour-averaging blur that leaves the boundary heights at
their post-integration values. -/
theorem stepSurface_characterization (env : Env) (dt : ℚ) (s : WaterSimulation)
    (hn : 2 < s.surfaceN) (hh : s.h.length = s.surfaceN)
    (hv : s.v.length = s.surfaceN) :
    ∀ i, i < s.surfaceN →
      (stepSurface env dt s).v.getD i 0 = velocityAfterStep env dt s i ∧
        (stepSurface env dt s).h.getD i 0 = heightAfterBlur env dt s i := by
  intro i hi
  unfold stepSurface
  rw [if_neg (by omega)]
  dsimp only
  rw [if_pos (by norm_num [surfaceViscosity])]
  constructor
  · rw [getD_ofFn _ i hi]
    simp [velocityAfterStep, surfaceDx]
  · rw [getD_ofFn _ i hi]
    simp [heightAfterBlur, heightAfterIntegration, velocityAfterStep, surfaceDx]

/-- Witness for C8 at the concrete three-sample state (interior sample 1). -/
theorem stepSurface_characterization_witness :
    (stepSurface envA 1 surfState).v.getD 1 0 = velocityAfterStep envA 1 surfState 1 ∧
      (stepSurface envA 1 surfState).h.getD 1 0 = heightAfterBlur envA 1 surfState 1 :=
  stepSurface_characterization envA 1 surfState
    (by norm_num [surfState, idleState]) (by norm_num [surfState, idleState])
    (by norm_num [surfState, idleState]) 1 (by norm_num [surfState, idleState])

end WaterSimulation

namespace WaterSimulation

lemma spawnDroplet_mem (env : Env) (s : WaterSimulation) (r1 r2 r3 r4 : ℚ) :
    ∀ d ∈ (spawnDroplet env s r1 r2 r3 r4).droplets,
      d ∈ s.droplets ∨ (0 ≤ d.vol ∧ 1.5 ≤ d.r ∧ d.r ≤ 5.5) := by
  unfold spawnDroplet
  split
  · exact fun d hd => Or.inl hd
  · intro d hd
    rw [List.mem_append] at hd
    rcases hd with hd | hd
    · exact Or.inl hd
    · rw [List.mem_singleton] at hd
      subst hd
      refine Or.inr ⟨le_trans (by norm_num) (le_max_left 0.0001 _), le_max_left _ _,
        max_le (by norm_num) (min_le_left _ _)⟩

lemma spawnN_mem (env : Env) (n i : ℕ) (s : WaterSimulation) :
    ∀ d ∈ (spawnN env n i s).droplets,
      d ∈ s.droplets ∨ (0 ≤ d.vol ∧ 1.5 ≤ d.r ∧ d.r ≤ 5.5) := by
  induction n generalizing i s with
  | zero => exact fun d hd => Or.inl hd
  | succ n ih =>
      intro d hd
      rw [spawnN] at hd
      rcases ih _ _ d hd with hmem | hprop
      · exact spawnDroplet_mem env s _ _ _ _ d hmem
      · exact Or.inr hprop

lemma emitDroplets_mem (env : Env) (dt : ℚ) (s : WaterSimulation) :
    ∀ d ∈ (emitDroplets env dt s).droplets,
      d ∈ s.droplets ∨ (0 ≤ d.vol ∧ 1.5 ≤ d.r ∧ d.r ≤ 5.5) := by
  unfold emitDroplets
  split
  · intro d hd
    rcases spawnN_mem env _ 0 _ d hd with hmem | hprop
    · exact Or.inl hmem
    · exact Or.inr hprop
  · exact fun d hd => Or.inl hd

lemma wallClamp_range (s : WaterSimulation) (d : Droplet) (x1 vx1 : ℚ)
    (hr0 : 0 ≤ d.r) (hrw : d.r ≤ s.width) :
    0 ≤ (wallClamp s d x1 vx1).1 ∧ (wallClamp s d x1 vx1).1 ≤ s.width := by
  unfold wallClamp
  split_ifs with h1 h2 <;> simp only [not_lt] at * <;>
    exact ⟨by linarith, by linarith⟩

lemma stepDroplet_kept_range (dt : ℚ) (d : Droplet) (s : WaterSimulation)
    (d' : Droplet) (hr0 : 0 ≤ d.r) (hrw : d.r ≤ s.width)
    (hsome : (stepDroplet dt d s).1 = some d') :
    0 ≤ d'.x ∧ d'.x ≤ s.width := by
  simp only [stepDroplet] at hsome
  split at hsome
  · simp at hsome
  · split at hsome
    · simp at hsome
    · simp only [Option.some.injEq] at hsome
      subst hsome
      exact wallClamp_range s d _ _ hr0 hrw

lemma processFrom_kept_range (dt : ℚ) (l : List Droplet) (s : WaterSimulation)
    (hall : ∀ d ∈ l, 0 ≤ d.r ∧ d.r ≤ s.width) :
    ∀ d' ∈ (processFrom dt l s).1, 0 ≤ d'.x ∧ d'.x ≤ s.width := by
  induction l with
  | nil => intro d' hd'; simp [processFrom] at hd'
  | cons d rest ih =>
      intro d' hd'
      simp only [processFrom] at hd'
      rcases hstep : stepDroplet dt d (processFrom dt rest s).2 with ⟨o, s2⟩
      rw [hstep] at hd'
      have ihall : ∀ e ∈ rest, 0 ≤ e.r ∧ e.r ≤ s.width :=
        fun e he => hall e (List.mem_cons_of_mem _ he)
      cases o with
      | none => exact ih ihall d' hd'
      | some dk =>
          rcases List.mem_cons.mp hd' with hk | hmem
      
          · subst hk
            obtain ⟨hr0, hrw⟩ := hall d (List.mem_cons_self d rest)
            have hsome : (stepDroplet dt d (processFrom dt rest s).2).1 = some d' := by
              rw [hstep]
            have := stepDroplet_kept_range dt d (processFrom dt rest s).2 d' hr0
              (by simpa using hrw) hsome
            simpa using this
          · exact ih ihall d' hmem

/-- C7 (amended): after an `update` step every surviving droplet's x lies in
`[0, width]`, provided every pre-existing droplet's radius lies in
`[0, width]` and the scene is at least 5.5 px wide (so freshly spawned radii,
clamped to `[1.5, 5.5]`, also fit).  Without the radius hypothesis the wall
clamp itself can move a droplet outside the scene — see the counterexample. -/
theorem update_droplets_stay_in_range (env : Env) (s : WaterSimulation) (dt : ℚ)
    (hw : 5.5 ≤ s.width) (hall : ∀ d ∈ s.droplets, 0 ≤ d.r ∧ d.r ≤ s.width) :
    ∀ d ∈ (update env s dt).droplets, 0 ≤ d.x ∧ d.x ≤ s.width := by
  intro d hd
  rw [update_droplets_eq] at hd
  have hall3 : ∀ e ∈ (applyDrain (clampDt dt)
      (emitDroplets env (clampDt dt) (updateStreamX env s))).droplets,
      0 ≤ e.r ∧ e.r ≤ (applyDrain (clampDt dt)
        (emitDroplets env (clampDt dt) (updateStreamX env s))).width := by
    intro e he
    simp only [applyDrain_droplets, applyDrain_width, emitDroplets_width,
      updateStreamX_width] at he ⊢
    rcases emitDroplets_mem env (clampDt dt) (updateStreamX env s) e he with hmem | hprop
    · exact hall e (by simpa using hmem)
    · exact ⟨by linarith [hprop.2.1], by linarith [hprop.2.2]⟩
  have := processFrom_kept_range (clampDt dt) _ _ hall3 d
    (by simpa using hd)
  simpa using this

/-- Witness for C7's amended theorem at a concrete state with an in-range
droplet. -/
theorem update_droplets_stay_in_range_witness :
    (update envA { idleState with droplets := [smallDroplet] } 1).droplets.Forall
      (fun d => 0 ≤ d.x ∧ d.x ≤ (100 : ℚ)) :=
  List.forall_iff_forall_mem.mpr
    (update_droplets_stay_in_range envA { idleState with droplets := [smallDroplet] } 1
      (by norm_num [idleState]) (by
        intro d hd
        have hds : d = smallDroplet := by simpa using hd
        subst hds
        constructor <;> norm_num [smallDroplet, idleState]))

/-- C7 counterexample: in a 4-px-wide scene a droplet of radius 5 starting at
x = 2 is pushed by the left-wall clamp to x = r = 5 > width, survives the
step, and ends outside `[0, width]`. -/
theorem update_droplet_escapes_range :
    (update envA narrowState 0).droplets.map Droplet.x = [5] ∧
      narrowState.width = 4 ∧ ¬ ((5 : ℚ) ≤ narrowState.width) := by
  refine ⟨?_, by norm_num [narrowState, idleState], by norm_num [narrowState, idleState]⟩
  rw [update_droplets_eq]
  norm_num [updateStreamX, emitDroplets, applyDrain, processFrom, stepDroplet,
    wallClamp, getSurfaceY, getBaseSurfaceY, getWaterHeight,
    sampleSurfaceOffset, addRippleImpulse, clampDt, gravity, airDrag,
    streamWidth, streamWobbleAmp, streamWobbleSpeed, dropsPerSecond, envA,
    narrowState, idleState, wideDroplet]

end WaterSimulation

namespace WaterSimulation

lemma applyDrain_id (dt : ℚ) (s : WaterSimulation) (hdr : s.isDraining = false) :
    applyDrain dt s = s := by
  unfold applyDrain
  rw [if_neg]
  rintro ⟨h1, _⟩
  rw [hdr] at h1
  exact Bool.false_ne_true h1

lemma stepDroplet_wV (dt : ℚ) (d : Droplet) (s : WaterSimulation)
    (hvol : 0 ≤ d.vol)
    (hinv : s.waterVolume ≤ s.targetVolume ∨ s.targetVolume = 0) :
    s.waterVolume ≤ (stepDroplet dt d s).2.waterVolume ∧
      ((stepDroplet dt d s).2.waterVolume ≤ s.targetVolume ∨ s.targetVolume = 0) := by
  simp only [stepDroplet]
  split
  · simp only [addRippleImpulse_waterVolume]
    split
    · rename_i h0
      exact ⟨by linarith, Or.inr h0⟩
    · rename_i h0
      rcases hinv with hle | h0'
      · exact ⟨le_min hle (by linarith), Or.inl (min_le_left _ _)⟩
      · exact absurd h0' h0
  · split
    · exact ⟨le_refl _, hinv⟩
    · exact ⟨le_refl _, hinv⟩

lemma processFrom_wV (dt : ℚ) (l : List Droplet) (s : WaterSimulation)
    (hvols : ∀ d ∈ l, 0 ≤ d.vol)
    (hinv : s.waterVolume ≤ s.targetVolume ∨ s.targetVolume = 0) :
    s.waterVolume ≤ (processFrom dt l s).2.waterVolume ∧
      ((processFrom dt l s).2.waterVolume ≤ s.targetVolume ∨ s.targetVolume = 0) := by
  induction l with
  | nil => exact ⟨le_refl _, hinv⟩
  | cons d rest ih =>
      obtain ⟨ih1, ih2⟩ := ih (fun e he => hvols e (List.mem_cons_of_mem _ he))
      have hstep' := stepDroplet_wV dt d (processFrom dt rest s).2
        (hvols d (List.mem_cons_self d rest))
        (by simpa using ih2)
      simp only [processFrom]
      rcases hstep : stepDroplet dt d (processFrom dt rest s).2 with ⟨o, s2⟩
      rw [hstep] at hstep'
      cases o <;> dsimp only <;>
        exact ⟨le_trans ih1 hstep'.1, by simpa using hstep'.2⟩

lemma update_wV_formula (env : Env) (s : WaterSimulation) (dt : ℚ)
    (hdr : s.isDraining = false) (hb : ¬ getBaseSurfaceY s < 0) :
    (update env s dt).waterVolume =
      (processFrom (clampDt dt)
        (emitDroplets env (clampDt dt) (updateStreamX env s)).droplets
        (emitDroplets env (clampDt dt) (updateStreamX env s))).2.waterVolume := by
  have hdr2 : (emitDroplets env (clampDt dt) (updateStreamX env s)).isDraining = false := by
    simp [hdr]
  have hA := applyDrain_id (clampDt dt) _ hdr2
  have hb2 : ¬ getBaseSurfaceY (emitDroplets env (clampDt dt) (updateStreamX env s)) < 0 := by
    simpa [getBaseSurfaceY, getWaterHeight] using hb
  simp only [update, updateCore, hA]
  rw [if_neg hb2]
  simp

/-- C1 (amended): while not draining, an `update` call never decreases
`waterVolume`, provided the base surface is not above the top of the scene
(`getBaseSurfaceY ≥ 0`: otherwise the overflow guard of lines 321–323 resets
the volume to `width·height`), the volume does not already exceed a non-zero
`targetVolume` (otherwise the impact clamp of line 292 lowers it), and every
active droplet carries a non-negative volume. -/
theorem update_monotone_fill (env : Env) (s : WaterSimulation) (dt : ℚ)
    (hdr : s.isDraining = false)
    (hbase : 0 ≤ getBaseSurfaceY s)
    (hinv : s.waterVolume ≤ s.targetVolume ∨ s.targetVolume = 0)
    (hvols : ∀ d ∈ s.droplets, 0 ≤ d.vol) :
    s.waterVolume ≤ (update env s dt).waterVolume := by
  rw [update_wV_formula env s dt hdr (not_lt.mpr hbase)]
  have hvols2 : ∀ d ∈ (emitDroplets env (clampDt dt) (updateStreamX env s)).droplets,
      0 ≤ d.vol := by
    intro e he
    rcases emitDroplets_mem env (clampDt dt) (updateStreamX env s) e he with hmem | hprop
    · exact hvols e (by simpa using hmem)
    · exact hprop.1
  have hinv2 : (emitDroplets env (clampDt dt) (updateStreamX env s)).waterVolume ≤
      (emitDroplets env (clampDt dt) (updateStreamX env s)).targetVolume ∨
      (emitDroplets env (clampDt dt) (updateStreamX env s)).targetVolume = 0 := by
    simpa using hinv
  have hmono := (processFrom_wV (clampDt dt) _ _ hvols2 hinv2).1
  simpa using hmono

/-- Witness for C1's amended theorem at a concrete filling state. -/
theorem update_monotone_fill_witness :
    fillingState.waterVolume ≤ (update envA fillingState (1 / 100)).waterVolume :=
  update_monotone_fill envA fillingState (1 / 100) rfl
    (by norm_num [getBaseSurfaceY, getWaterHeight, fillingState, idleState])
    (Or.inl (by norm_num [fillingState, idleState]))
    (by intro d hd; simp [fillingState, idleState] at hd)

/-- C1 counterexample: with `isDraining = false`, a target fill height (200)
above the scene height (100) and volume 20000 > width·height = 10000, the
overflow guard of `update` (source lines 321–323) rewrites `waterVolume`
from 20000 down to 10000 in a single tick with no draining involved. -/
theorem update_volume_decreases_without_drain :
    overfullState.isDraining = false ∧
      overfullState.waterVolume = 20000 ∧
      (update envA overfullState 0).waterVolume = 10000 ∧
      (update envA overfullState 0).waterVolume < overfullState.waterVolume := by
  have hval : (update envA overfullState 0).waterVolume = 10000 := by
    norm_num [update, updateCore, updateStreamX, emitDroplets, applyDrain,
      processFrom, applySink, stepSurface, getBaseSurfaceY, getWaterHeight,
      clampDt, streamWidth, streamWobbleAmp, streamWobbleSpeed, dropsPerSecond,
      envA, overfullState, idleState]
  refine ⟨rfl, by norm_num [overfullState, idleState], hval, ?_⟩
  rw [hval]
  norm_num [overfullState, idleState]

end WaterSimulation

namespace WaterSimulation

lemma emitDroplets_id (env : Env) (dt : ℚ) (s : WaterSimulation)
    (hvps : s.volumePerSecond ≤ 0) : emitDroplets env dt s = s := by
  unfold emitDroplets
  rw [if_neg]
  rintro ⟨_, _, h⟩
  linarith

lemma applyDrain_wV_bounds (dt : ℚ) (u : WaterSimulation) (hdt : 0 ≤ dt)
    (hw0 : 0 ≤ u.waterVolume) :
    0 ≤ (applyDrain dt u).waterVolume ∧
      (applyDrain dt u).waterVolume ≤ u.waterVolume := by
  unfold applyDrain
  split
  · rename_i hcond
    refine ⟨le_max_left 0 _, ?_⟩
    have hrt : 0 ≤ u.drainRate * dt := mul_nonneg (le_of_lt hcond.2) hdt
    exact max_le hw0 (by linarith)
  · exact ⟨hw0, le_refl _⟩

lemma applyDrain_wV_streamX (env : Env) (dt : ℚ) (s : WaterSimulation) :
    (applyDrain dt (updateStreamX env s)).waterVolume =
      (applyDrain dt s).waterVolume := by
  unfold applyDrain
  simp

lemma getBaseSurfaceY_applyDrain_streamX (env : Env) (dt : ℚ) (s : WaterSimulation) :
    getBaseSurfaceY (applyDrain dt (updateStreamX env s)) =
      getBaseSurfaceY (applyDrain dt s) := by
  unfold getBaseSurfaceY getWaterHeight applyDrain
  simp

lemma update_drain_fields (env : Env) (s : WaterSimulation) (dt : ℚ)
    (hdrop : s.droplets = []) (hvps : s.volumePerSecond = 0)
    (hb : ¬ getBaseSurfaceY (applyDrain (clampDt dt) s) < 0) :
    (update env s dt).droplets = [] ∧
      (update env s dt).waterVolume = (applyDrain (clampDt dt) s).waterVolume ∧
      (update env s dt).isDraining =
        (if s.isDraining = true ∧ (applyDrain (clampDt dt) s).waterVolume ≤ 0
          then false else s.isDraining) ∧
      (update env s dt).whirlpoolActive =
        (if s.isDraining = true ∧ (applyDrain (clampDt dt) s).waterVolume ≤ 0
          then false else s.whirlpoolActive) ∧
      (update env s dt).drainRate =
        (if s.isDraining = true ∧ (applyDrain (clampDt dt) s).waterVolume ≤ 0
          then 0 else s.drainRate) := by
  have hemit : emitDroplets env (clampDt dt) (updateStreamX env s) = updateStreamX env s :=
    emitDroplets_id env (clampDt dt) (updateStreamX env s) (by simp [hvps])
  have hb2 : ¬ getBaseSurfaceY (applyDrain (clampDt dt) (updateStreamX env s)) < 0 := by
    rw [getBaseSurfaceY_applyDrain_streamX]
    exact hb
  have hdrop2 : (applyDrain (clampDt dt) (updateStreamX env s)).droplets = [] := by
    simp [hdrop]
  simp only [update, updateCore, hemit, hdrop2, processFrom]
  rw [if_neg hb2]
  simp [applyDrain_wV_streamX, hdrop]

lemma clampDt_eq_self (dt : ℚ) (h0 : 0 ≤ dt) (h5 : dt ≤ 0.05) : clampDt dt = dt := by
  unfold clampDt
  rw [min_eq_right h5, max_eq_right h0]

lemma drain_tick (env : Env) (wd ht W0 T dt : ℚ) (u : WaterSimulation)
    (hwd : 0 < wd) (hW0 : 0 ≤ W0) (_hT : 0 ≤ T)
    (hdt0 : 0 ≤ dt) (hdt5 : dt ≤ 0.05)
    (hb : drainBasic wd ht u) (hp : drainPhase W0 T u) :
    drainBasic wd ht (update env u dt) ∧ drainPhase W0 (T + dt) (update env u dt) := by
  obtain ⟨hdrop, hvps, hwidth, hheight, hw0, hwwh⟩ := hb
  have hclamp : clampDt dt = dt := clampDt_eq_self dt hdt0 hdt5
  have hbnds := applyDrain_wV_bounds dt u hdt0 hw0
  have hbase : ¬ getBaseSurfaceY (applyDrain (clampDt dt) u) < 0 := by
    rw [hclamp]
    have hle : (applyDrain dt u).waterVolume / wd ≤ ht := by
      rw [div_le_iff₀ hwd]
      have := hbnds.2
      nlinarith
    unfold getBaseSurfaceY getWaterHeight
    simp only [applyDrain_width, applyDrain_height, applyDrain_targetFillHeight,
      hwidth, hheight]
    rw [if_neg (not_le.mpr hwd)]
    push_neg
    calc (0 : ℚ) ≤ ht - (applyDrain dt u).waterVolume / wd := by linarith
    _ ≤ ht - min (if u.targetFillHeight = 0 then ht else u.targetFillHeight)
          ((applyDrain dt u).waterVolume / wd) := by
        have := min_le_right (if u.targetFillHeight = 0 then ht else u.targetFillHeight)
          ((applyDrain dt u).waterVolume / wd)
        linarith
  obtain ⟨hfd, hfw, hfi, hfwa, hfr⟩ := update_drain_fields env u dt hdrop hvps hbase
  rw [hclamp] at hfw hfi hfwa hfr
  have hVle := hbnds.2
  have hV0 := hbnds.1
  have hbasic : drainBasic wd ht (update env u dt) := by
    refine ⟨hfd, ?_, ?_, ?_, ?_, ?_⟩
    · rw [update_volumePerSecond]; exact hvps
    · rw [update_width]; exact hwidth
    · rw [update_height]; exact hheight
    · rw [hfw]; exact hV0
    · rw [hfw]; linarith
  refine ⟨hbasic, ?_⟩
  rcases hp with ⟨hd, hwp, hdr, hwv, hpos⟩ | ⟨hd, hwp, hwv, hdr⟩
  · -- currently draining
    rcases lt_or_le 0 u.waterVolume with hposv | hnonpos
    · -- positive volume: the drain guard is active iff W0 > 0
      rcases eq_or_lt_of_le hW0 with hW0z | hW0pos
      · exfalso
        rw [hwv, ← hW0z] at hposv
        simp at hposv
      · have hrpos : 0 < u.drainRate := by rw [hdr]; positivity
        have hVval : (applyDrain dt u).waterVolume =
            max 0 (W0 - W0 / 2.2 * (T + dt)) := by
          unfold applyDrain
          rw [if_pos ⟨hd, hrpos⟩]
          dsimp only
          rw [hwv, hdr]
          ring_nf
        rcases lt_or_le 0 (W0 - W0 / 2.2 * (T + dt)) with hnext | hnext
        · -- still positive: stays in the draining phase
          have hVpos : (applyDrain dt u).waterVolume = W0 - W0 / 2.2 * (T + dt) := by
            rw [hVval, max_eq_right (le_of_lt hnext)]
          left
          have hcond : ¬ (u.isDraining = true ∧ (applyDrain dt u).waterVolume ≤ 0) := by
            rintro ⟨_, hle0⟩
            rw [hVpos] at hle0
            linarith
          rw [if_neg hcond] at hfi hfwa hfr
          exact ⟨hfi.trans hd, hfwa.trans hwp, hfr.trans hdr,
            by rw [hfw, hVpos], Or.inl (by rw [hfw, hVpos]; exact hnext)⟩
        · -- volume hits the floor: the auto-stop fires at the end of this tick
          have hVzero : (applyDrain dt u).waterVolume = 0 := by
            rw [hVval, max_eq_left hnext]
          right
          have hcond : u.isDraining = true ∧ (applyDrain dt u).waterVolume ≤ 0 :=
            ⟨hd, by rw [hVzero]⟩
          rw [if_pos hcond] at hfi hfwa hfr
          exact ⟨hfi, hfwa, by rw [hfw, hVzero], hfr⟩
    · -- only possible at T = 0 with W0 = 0 (empty reservoir at activation)
      have hT0 : T = 0 := by
        rcases hpos with hposv | hT0
        · linarith
        · exact hT0
      have hwvW0 : u.waterVolume = W0 := by rw [hwv, hT0]; ring
      have hW0z : W0 = 0 := le_antisymm (by linarith [hwvW0 ▸ hnonpos]) hW0
      have hrz : u.drainRate = 0 := by rw [hdr, hW0z]; norm_num
      have hVval : (applyDrain dt u).waterVolume = u.waterVolume := by
        unfold applyDrain
        rw [if_neg]
        rintro ⟨_, hrpos⟩
        rw [hrz] at hrpos
        exact lt_irrefl 0 hrpos
      have hVzero : (applyDrain dt u).waterVolume = 0 := by
        rw [hVval, hwvW0, hW0z]
      right
      have hcond : u.isDraining = true ∧ (applyDrain dt u).waterVolume ≤ 0 :=
        ⟨hd, by rw [hVzero]⟩
      rw [if_pos hcond] at hfi hfwa hfr
      exact ⟨hfi, hfwa, by rw [hfw, hVzero], hfr⟩
  · -- already stopped: everything stays stopped
    have hVval : (applyDrain dt u).waterVolume = u.waterVolume := by
      unfold applyDrain
      rw [if_neg]
      rintro ⟨hd', _⟩
      rw [hd] at hd'
      exact Bool.false_ne_true hd'
    have hcond : ¬ (u.isDraining = true ∧ (applyDrain dt u).waterVolume ≤ 0) := by
      rintro ⟨hd', _⟩
      rw [hd] at hd'
      exact Bool.false_ne_true hd'
    rw [if_neg hcond] at hfi hfwa hfr
    right
    exact ⟨hfi.trans hd, hfwa.trans hwp, by rw [hfw, hVval, hwv], hfr.trans hdr⟩

lemma drain_run (env : Env) (wd ht W0 : ℚ) (hwd : 0 < wd) (hW0 : 0 ≤ W0) :
    ∀ (dts : List ℚ), (∀ x ∈ dts, 0 ≤ x ∧ x ≤ 0.05) →
      ∀ (T : ℚ) (u : WaterSimulation), 0 ≤ T → drainBasic wd ht u →
        drainPhase W0 T u →
        drainBasic wd ht (updates env u dts) ∧
          drainPhase W0 (T + dts.sum) (updates env u dts) := by
  intro dts
  induction dts with
  | nil =>
      intro _ T u _ hb hp
      simpa [updates] using ⟨hb, hp⟩
  | cons dt dts ih =>
      intro hdts T u hT hb hp
      have hdt := hdts dt (List.mem_cons_self dt dts)
      have hstep := drain_tick env wd ht W0 T dt u hwd hW0 hT hdt.1 hdt.2 hb hp
      have hrest := ih (fun x hx => hdts x (List.mem_cons_of_mem _ hx)) (T + dt)
        (update env u dt) (by linarith) hstep.1 hstep.2
      have hsum : T + (dt :: dts).sum = T + dt + dts.sum := by
        rw [List.sum_cons]; ring
      rw [hsum]
      simpa [updates] using hrest

/-- C3 (amended): starting from a state with no droplets in flight, emission
off, positive width, non-negative volume fitting in the scene
(`waterVolume ≤ width·height`), a `startDraining()` call (which fixes
`drainRate = waterVolume / 2.2`) followed by update ticks whose raw `dt`
values each lie in `[0, 0.05]` (larger values are clamped to 0.05, so raw
sums do not count — see the counterexample) and sum to at least the 2.2 s
drain duration drives `waterVolume` to exactly 0 and self-deactivates the
drain back to Idle: `isDraining` and `whirlpoolActive` are false and the
droplet list is empty. -/
theorem drain_completion (env : Env) (s : WaterSimulation) (dts : List ℚ)
    (hdrop : s.droplets = []) (hvps : s.volumePerSecond = 0)
    (hwd : 0 < s.width) (hW0 : 0 ≤ s.waterVolume)
    (hWwh : s.waterVolume ≤ s.width * s.height)
    (hdts : ∀ x ∈ dts, 0 ≤ x ∧ x ≤ 0.05)
    (hsum : 2.2 ≤ dts.sum) :
    (updates env (startDraining s) dts).waterVolume = 0 ∧
      (updates env (startDraining s) dts).isDraining = false ∧
      (updates env (startDraining s) dts).whirlpoolActive = false ∧
      (updates env (startDraining s) dts).droplets = [] := by
  have hstart_basic : drainBasic s.width s.height (startDraining s) :=
    ⟨hdrop, hvps, rfl, rfl, hW0, hWwh⟩
  have hstart_phase : drainPhase s.waterVolume 0 (startDraining s) :=
    Or.inl ⟨rfl, rfl, rfl, by
      show s.waterVolume = s.waterVolume - s.waterVolume / 2.2 * 0
      ring, Or.inr rfl⟩
  obtain ⟨hb, hp⟩ := drain_run env s.width s.height s.waterVolume hwd hW0 dts hdts 0
    (startDraining s) (le_refl 0) hstart_basic hstart_phase
  rcases hp with ⟨_, _, _, hwv, hpos⟩ | ⟨hd, hwp, hwv, _⟩
  · exfalso
    rcases hpos with hposv | hT0
    · have hmul : s.waterVolume / 2.2 * 2.2 ≤ s.waterVolume / 2.2 * (0 + dts.sum) := by
        have hdiv : 0 ≤ s.waterVolume / 2.2 := by positivity
        nlinarith
      have hcancel : s.waterVolume / 2.2 * 2.2 = s.waterVolume := by
        field_simp
      rw [hwv] at hposv
      nlinarith
    · rw [zero_add] at hT0
      rw [hT0] at hsum
      norm_num at hsum
  · exact ⟨hwv, hd, hwp, hb.1⟩

/-- Witness for C3's amended theorem: 11 units of volume drained by 44 ticks
of 50 ms each (2.2 s total). -/
theorem drain_completion_witness :
    (updates envA (startDraining drainState) (List.replicate 44 (1 / 20))).waterVolume = 0 ∧
      (updates envA (startDraining drainState) (List.replicate 44 (1 / 20))).isDraining = false := by
  obtain ⟨h1, h2, _, _⟩ := drain_completion envA drainState (List.replicate 44 (1 / 20))
    (by norm_num [drainState, idleState]) (by norm_num [drainState, idleState])
    (by norm_num [drainState, idleState]) (by norm_num [drainState, idleState])
    (by norm_num [drainState, idleState])
    (by
      intro x hx
      rw [List.eq_of_mem_replicate hx]
      norm_num)
    (by simp [List.sum_replicate]; norm_num)
  exact ⟨h1, h2⟩

/-- C3 counterexample: a single tick of raw `dt = 10` has a `dt` sum (10)
far above the 2.2 s drain duration, but `update` clamps it to 0.05, so only
`drainRate · 0.05` is withdrawn: from volume 11 the reservoir still holds
10.75 and the drain is still active — repeated ticking for a *raw* `dt`
total of the drain duration does not empty the reservoir. -/
theorem drain_not_complete_with_unclamped_sum :
    ([(10 : ℚ)].sum = 10) ∧ (2.2 : ℚ) ≤ 10 ∧
      (updates envA (startDraining drainState) [10]).waterVolume = 43 / 4 ∧
      (updates envA (startDraining drainState) [10]).isDraining = true := by
  refine ⟨by norm_num, by norm_num, ?_, ?_⟩
  · have hfields := update_drain_fields envA (startDraining drainState) 10
      (by norm_num [startDraining, drainState, idleState])
      (by norm_num [startDraining, drainState, idleState])
      (by norm_num [getBaseSurfaceY, getWaterHeight, applyDrain, clampDt,
        startDraining, drainState, idleState])
    rw [show (updates envA (startDraining drainState) [10]) =
        update envA (startDraining drainState) 10 from rfl, hfields.2.1]
    norm_num [applyDrain, clampDt, startDraining, drainState, idleState]
  · have hfields := update_drain_fields envA (startDraining drainState) 10
      (by norm_num [startDraining, drainState, idleState])
      (by norm_num [startDraining, drainState, idleState])
      (by norm_num [getBaseSurfaceY, getWaterHeight, applyDrain, clampDt,
        startDraining, drainState, idleState])
    rw [show (updates envA (startDraining drainState) [10]) =
        update envA (startDraining drainState) 10 from rfl, hfields.2.2.1]
    rw [if_neg]
    · rfl
    · rintro ⟨_, hle⟩
      rw [show (applyDrain (clampDt 10) (startDraining drainState)).waterVolume =
          43 / 4 from by
        norm_num [applyDrain, clampDt, startDraining, drainState, idleState]] at hle
      norm_num at hle

end WaterSimulation
